import Mathlib

/-!
Verification development for the CDR mediation pipeline
(decoder_node/decoder.py, datawarehouse_mapper_node/voice_usage_datawarehouse_mapper.py,
billing_mapper_node/data_usage_billing_mapper.py, "COMMAN BLN"/cbl.py).

The Python programs operate on JSON-like trees (dicts, lists, strings,
numbers, booleans, null).  `JValue` is the shallow embedding of that value
space.  Python numbers (int and float) are both embedded as exact rationals:
the mappers do all arithmetic in `decimal.Decimal` (exact), and the final
`float(...)` casts are modelled as the exact rational value (binary-float
rounding is not modelled; every concrete value appearing in a theorem below
is exactly representable).

Totalisation notes (places where Python would raise and the embedding
returns a default instead are individually marked at the definitions):
`jget` on a non-dict returns null where Python's `.get` raises
AttributeError, and `jlist` on a non-list returns [] where Python's `for`
loop would iterate dict keys / string characters or raise TypeError.  All
record shapes exercised by the theorems below are dict/list shaped, where
the embedding and Python agree.
-/

/- Core marks the `Rat` arithmetic operations `@[irreducible]`; they are
resealed to their plain definitions here so that concrete records evaluate
by `rfl`/`decide` (the remaining `Rat` operations are already
semireducible). -/
unseal Rat.sub Rat.add Rat.mul Rat.inv

set_option maxRecDepth 8000

inductive JValue where
  | null
  | bool (b : Bool)
  | num (q : ℚ)
  | str (s : String)
  | arr (xs : List JValue)
  | obj (kvs : List (String × JValue))

mutual

/-- Structural boolean equality on embedded JSON values. -/
def beqJ : JValue → JValue → Bool
  | .null, .null => true
  | .bool a, .bool b => a == b
  | .num a, .num b => a == b
  | .str a, .str b => a == b
  | .arr xs, .arr ys => beqJList xs ys
  | .obj xs, .obj ys => beqJFields xs ys
  | _, _ => false

/-- Pointwise `beqJ` on lists of values. -/
def beqJList : List JValue → List JValue → Bool
  | [], [] => true
  | x :: xs, y :: ys => beqJ x y && beqJList xs ys
  | _, _ => false

/-- Pointwise `beqJ` on association lists. -/
def beqJFields : List (String × JValue) → List (String × JValue) → Bool
  | [], [] => true
  | (k, x) :: xs, (l, y) :: ys => k == l && beqJ x y && beqJFields xs ys
  | _, _ => false

end

/-- Python truthiness on JSON values: `None`, `False`, `0`, `""`, `[]`, `{}`
are falsy, everything else truthy. -/
def truthy : JValue → Bool
  | .null => false
  | .bool b => b
  | .num q => q != 0
  | .str s => s != ""
  | .arr xs => !xs.isEmpty
  | .obj kvs => !kvs.isEmpty

/-- Python `a or b` on JSON values. -/
def pyOr (a b : JValue) : JValue :=
  if truthy a then a else b

/-- Uppercase a string (char-list form of `str.upper()`; the core
`String.toUpper` is well-founded-recursive and does not kernel-reduce). -/
def upperStr (s : String) : String := String.mk (s.data.map Char.toUpper)

/-- Lowercase a string (char-list form of `str.lower()`). -/
def lowerStr (s : String) : String := String.mk (s.data.map Char.toLower)

/-- Leading-substring test (char-list form of `str.startswith`). -/
def startsStr (s p : String) : Bool := p.data.isPrefixOf s.data

/-- Trailing-substring test (char-list form of `str.endswith`). -/
def endsStr (s p : String) : Bool := p.data.isSuffixOf s.data

/-- Python `d.get(k)` (default `None`) on a dict.  Python raises
AttributeError when the receiver is not a dict; the embedding returns null
there (see the totalisation note in the header). -/
def jget (v : JValue) (k : String) : JValue :=
  match v with
  | .obj kvs => (kvs.lookup k).getD .null
  | _ => .null

/-- Elements of a JSON list; non-lists yield `[]` (see the totalisation
note in the header: Python's `for` would iterate dict keys / string
characters and raise TypeError on numbers). -/
def jlist : JValue → List JValue
  | .arr xs => xs
  | _ => []

/-- Digits-only natural number parser (helper for the decimal parser). -/
def decDigitsVal (cs : List Char) : Option ℕ :=
  if cs ≠ [] ∧ cs.all (·.isDigit) then
    some (cs.foldl (fun a c => a * 10 + (c.toNat - 48)) 0)
  else none

/-- Split a character list at the first `'.'`. -/
def splitDot : List Char → List Char × Option (List Char)
  | [] => ([], none)
  | '.' :: rest => ([], some rest)
  | c :: rest => let (a, b) := splitDot rest; (c :: a, b)

/-- Parse a plain decimal string the way `decimal.Decimal(str)` does for the
forms `±digits`, `±digits.digits`, `±digits.`, `±.digits` (exponent forms
and surrounding whitespace, which Decimal also accepts, are not modelled;
no input below uses them). -/
def parseDecimalString (s : String) : Option ℚ :=
  let (sign, cs) : ℤ × List Char :=
    match s.data with
    | '+' :: rest => (1, rest)
    | '-' :: rest => (-1, rest)
    | cs => (1, cs)
  match splitDot cs with
  | (ip, none) => (decDigitsVal ip).map fun n => (sign * n : ℤ)
  | (ip, some fp) =>
    if ip = [] ∧ fp = [] then none
    else if (ip.all (·.isDigit)) ∧ (fp.all (·.isDigit)) then
      some ((sign : ℚ) * ((ip.foldl (fun a c => a * 10 + (c.toNat - 48)) 0 : ℕ) +
        (fp.foldl (fun a c => a * 10 + (c.toNat - 48)) 0 : ℕ) / ((10 : ℚ) ^ fp.length)))
    else none

/-- `to_decimal` of the mappers: `None`/`""` give `None`; otherwise
`Decimal(str(v))`, which succeeds exactly on numbers and numeric strings
(`str` of booleans, lists and dicts is never a valid decimal literal). -/
def to_decimal : JValue → Option ℚ
  | .null => none
  | .num q => some q
  | .str s => if s = "" then none else parseDecimalString s
  | _ => none

/-- Fractional decimal digits of `rem / d`, at most `fuel` of them (Python
float `str` always prints finitely many digits; every value reaching this
renderer in a theorem below has a terminating decimal expansion well inside
the fuel). -/
def fracDigits (d : ℕ) : ℕ → ℕ → List Char
  | 0, _ => []
  | fuel + 1, rem =>
    if rem = 0 then []
    else Char.ofNat (48 + rem * 10 / d) :: fracDigits d fuel (rem * 10 % d)

/-- Python `str` of a float value (e.g. `70.0`, `-3.25`), on the exact
rational model of the float. -/
def pyFloatStr (q : ℚ) : String :=
  let sign := if q < 0 then "-" else ""
  let n := q.num.natAbs
  let d := q.den
  if n % d = 0 then sign ++ toString (n / d) ++ ".0"
  else sign ++ toString (n / d) ++ "." ++ String.mk (fracDigits d 17 (n % d))

/-- Python `str` on JSON values.  Integral numbers render int-style and
non-integral ones float-style (the embedding does not distinguish int from
float); `str` of a list/dict (a Python repr, never meaningful to the
mappers) is rendered as `""`. -/
def pyStr : JValue → String
  | .null => "None"
  | .bool true => "True"
  | .bool false => "False"
  | .num q => if q.den = 1 then toString q.num else pyFloatStr q
  | .str s => s
  | .arr _ => ""
  | .obj _ => ""

/-- Value of a single hex digit. -/
def hexDigitVal (c : Char) : Option ℕ :=
  if '0' ≤ c ∧ c ≤ '9' then some (c.toNat - 48)
  else if 'a' ≤ c ∧ c ≤ 'f' then some (c.toNat - 87)
  else if 'A' ≤ c ∧ c ≤ 'F' then some (c.toNat - 55)
  else none

/-- Python `int(s, 16)` restricted to plain nonempty hex-digit strings
(`int` also accepts sign/whitespace/`0x`, unused by the inputs here). -/
def parseHexNat (s : String) : Option ℕ :=
  if s.data = [] then none
  else s.data.foldl (fun acc c => do
    let a ← acc
    let d ← hexDigitVal c
    pure (a * 16 + d)) (some 0)

/-!
## decoder_node/decoder.py : flattening utilities

`_is_var_pair`, `_flatten_var_pair`, `_collapse_single_key_dicts`,
`_untag_known_pairs` and `flatten_and_collapse`, embedded one-for-one.
Objects stand for Python dicts, whose keys are unique, so the two-key test
`set(d.keys()) == {"varName", "varValue"}` is the test that the key list is
one of the two orderings of those keys.
-/

/-- Key-list form of `_is_var_pair`: the dict has exactly the keys
`varName` and `varValue`. -/
def isVarPairKeys (kvs : List (String × JValue)) : Bool :=
  decide (kvs.map Prod.fst = ["varName", "varValue"] ∨
          kvs.map Prod.fst = ["varValue", "varName"])

/-- Replace the value at key `k` in place, keeping the entry position
(the behaviour of a Python dict item assignment for a present key). -/
def setAt : List (String × JValue) → String → JValue → List (String × JValue)
  | [], k, v => [(k, v)]
  | (k', v') :: rest, k, v =>
    if k' = k then (k, v) :: rest else (k', v') :: setAt rest k v

/-- One merge step of `_collapse_single_key_dicts`: insert `k ↦ v`, and on a
duplicate key accumulate values into a list (appending directly when the
present value is already a list, as the Python code does). -/
def addMerge (acc : List (String × JValue)) (k : String) (v : JValue) :
    List (String × JValue) :=
  match acc.lookup k with
  | some (.arr ys) => setAt acc k (.arr (ys ++ [v]))
  | some old => setAt acc k (.arr [old, v])
  | none => acc ++ [(k, v)]

/-- The single key/value item of a one-entry dict, if the value is one. -/
def singleKV : JValue → Option (String × JValue)
  | .obj [(k, v)] => some (k, v)
  | _ => none

/-- The single key/value items of a list of single-key dicts (`None` when
any element is not one). -/
def allSingles : List JValue → Option (List (String × JValue))
  | [] => some []
  | x :: xs =>
    match singleKV x, allSingles xs with
    | some kv, some rest => some (kv :: rest)
    | _, _ => none

/-- `_collapse_single_key_dicts`: a nonempty list consisting entirely of
single-key dicts becomes one merged dict; anything else is returned
unchanged. -/
def collapse_single_key_dicts (v : JValue) : JValue :=
  match v with
  | .arr xs =>
    if xs.isEmpty then v
    else
      match allSingles xs with
      | some pairs => .obj (pairs.foldl (fun acc kv => addMerge acc kv.1 kv.2) [])
      | none => v
  | _ => v

/-- The dict `_flatten_var_pair` builds from a var-pair dict:
`{str(d["varName"]): d["varValue"]}`, the value left unprocessed. -/
def varPairObj (kvs : List (String × JValue)) : JValue :=
  .obj [(pyStr ((kvs.lookup "varName").getD .null),
         (kvs.lookup "varValue").getD .null)]

mutual

/-- `flatten_and_collapse`: untag `[tag, dict]` pairs, flatten
`{varName, varValue}` dicts into single attribute entries (the var-pair
value is left as is, exactly as `_flatten_var_pair` leaves it), recurse,
and collapse lists of single-key dicts (always for lists, and again for
dict values under keys ending in `Elements`, which subsumes the literal
`recordElements` test).  The `[tag, dict]` clause repeats the dict clause
body because Python first untags and then falls through to the dict
logic on the untagged value. -/
def flatten_and_collapse : JValue → JValue
  | .null => .null
  | .bool b => .bool b
  | .num q => .num q
  | .str s => .str s
  | .obj kvs =>
    if isVarPairKeys kvs then varPairObj kvs else .obj (fcFields kvs)
  | .arr [.str _, .obj kvs] =>
    if isVarPairKeys kvs then varPairObj kvs else .obj (fcFields kvs)
  | .arr xs => collapse_single_key_dicts (.arr (fcList xs))

/-- Elementwise recursion of `flatten_and_collapse` over a list. -/
def fcList : List JValue → List JValue
  | [] => []
  | x :: xs => flatten_and_collapse x :: fcList xs

/-- Fieldwise recursion of `flatten_and_collapse` over dict entries, with
the extra `_collapse_single_key_dicts` applied to values of keys ending in
`Elements`. -/
def fcFields : List (String × JValue) → List (String × JValue)
  | [] => []
  | (k, x) :: rest =>
    (k, if endsStr k "Elements" then
          collapse_single_key_dicts (flatten_and_collapse x)
        else flatten_and_collapse x) :: fcFields rest

end

/-- A two-element `[tag, dict]` list, the shape `_untag_known_pairs` strips. -/
def isTaggedPair : List JValue → Bool
  | [.str _, .obj _] => true
  | _ => false

mutual

/-- Normal form for `flatten_and_collapse`: no dict anywhere has exactly
the `varName`/`varValue` key pair, no list is a `[tag, dict]` pair, and no
nonempty list consists entirely of single-key dicts.  (This is the shape
the normalisation pass is meant to produce.) -/
def normalized : JValue → Bool
  | .null => true
  | .bool _ => true
  | .num _ => true
  | .str _ => true
  | .obj kvs => !isVarPairKeys kvs && normalizedFields kvs
  | .arr xs =>
    !isTaggedPair xs &&
    !(!xs.isEmpty && (allSingles xs).isSome) &&
    normalizedList xs

/-- `normalized` on list elements. -/
def normalizedList : List JValue → Bool
  | [] => true
  | x :: xs => normalized x && normalizedList xs

/-- `normalized` on dict entries. -/
def normalizedFields : List (String × JValue) → Bool
  | [] => true
  | (_, x) :: rest => normalized x && normalizedFields rest

end

/-!
## decoder_node/decoder.py : decode_all_ber_records

The BER decoder itself is the external `asn1tools` library; it is abstracted
as a function `dec` from the remaining byte suffix to an optional decoded
value together with its consumed length (covering both the
`decode_with_length` mode and the re-encode-to-measure mode of the source).
On a decode failure the loop advances one byte: in the source, the
`valid_tags` whitelist only selects the log level, both failure branches
execute `offset += 1`.  The `if not slice_data: break` test is subsumed by
the `while offset < total_len` guard.  The Python `while` loop is embedded
with explicit fuel, and `decode_all_ber_records` runs it with fuel
`len(raw)`; the C3 theorem shows each iteration strictly increases the
offset, so this fuel is always enough.
-/

/-- A decoded record as assembled by the framing loop: its 1-based index,
the consumed byte length stored in the header, and the decoded payload. -/
structure DecodedRecord (α : Type) where
  index : ℕ
  recordLength : ℕ
  genericRecord : α
  deriving DecidableEq

/-- One iteration of the framing loop at a given offset: the emitted record
(if any), the new offset, and the new record count. -/
def frameStep (dec : List ℕ → Option (α × ℕ)) (raw : List ℕ)
    (offset count : ℕ) : Option (DecodedRecord α) × ℕ × ℕ :=
  match dec (raw.drop offset) with
  | some (v, len) => (some ⟨count, len, v⟩, offset + len, count + 1)
  | none => (none, offset + 1, count)

/-- The `while offset < total_len` framing loop, with explicit fuel. -/
def decodeLoop (dec : List ℕ → Option (α × ℕ)) (raw : List ℕ) :
    ℕ → ℕ → ℕ → List (DecodedRecord α)
  | 0, _, _ => []
  | fuel + 1, offset, count =>
    if offset < raw.length then
      match frameStep dec raw offset count with
      | (some r, offset', count') => r :: decodeLoop dec raw fuel offset' count'
      | (none, offset', count') => decodeLoop dec raw fuel offset' count'
    else []

/-- `decode_all_ber_records`: run the framing loop from offset 0 and record
count 1, with fuel `len(raw)`. -/
def decode_all_ber_records (dec : List ℕ → Option (α × ℕ)) (raw : List ℕ) :
    List (DecodedRecord α) :=
  decodeLoop dec raw raw.length 0 1

/-!
## datawarehouse_mapper_node/voice_usage_datawarehouse_mapper.py : helpers
-/

/-- The last `n` characters of a string (Python `s[-n:]`), in char-list
form. -/
def takeRightStr (s : String) (n : ℕ) : String :=
  String.mk (s.data.drop (s.data.length - n))

/-- `last_n_chars`: `""` for falsy input, otherwise the last `n` characters
of `str(s)` (the whole string when it is shorter than `n`). -/
def last_n_chars (v : JValue) (n : ℕ) : String :=
  if !truthy v then ""
  else
    let s := pyStr v
    if n ≤ s.length then takeRightStr s n else s

/-- Reverse the two hex digits of each byte pair (a trailing unpaired
character is kept as is, as Python's `p[::-1]` of a 1-character slice). -/
def swapPairs : List Char → List Char
  | a :: b :: rest => b :: a :: swapPairs rest
  | xs => xs

/-- The 18-character main branch of the location decode, applied to the
tail: tracking-area-code from chars 0-4 (hex, rendered decimal, kept raw
when not hex), the swapped-nibble `F`-stripped field from chars 4-10, and
`enb`/`cell` = value mod/div 256 of chars 10-18 as hex (0 when not hex). -/
def locationMain (s : String) : String :=
  let tac_hex := s.take 4
  let mccmnc_hex := (s.drop 4).take 6
  let eci_hex := (s.drop 10).take 8
  let tac_dec := match parseHexNat tac_hex with
    | some n => toString n
    | none => tac_hex
  let swapped_clean :=
    String.mk ((swapPairs mccmnc_hex.data).filter (fun c => c ≠ 'F' ∧ c ≠ 'f'))
  let eci_int := (parseHexNat eci_hex).getD 0
  swapped_clean ++ "-" ++ tac_dec ++ "-" ++ toString (eci_int % 256) ++ "-"
    ++ toString (eci_int / 256)

/-- The under-18-character fallback of the location decode: the 14-char
tail split 6-4-4. -/
def locationFallback (s14 : String) : String :=
  s14.take 6 ++ "-" ++ ((s14.drop 6).take 4) ++ "-" ++ ((s14.drop 10).take 4)

/-- `decode_location_hex_field`: decode the last 18 characters with
`locationMain`; with fewer than 18 characters available, fall back to
`locationFallback` on the last 14 characters. -/
def decode_location_hex_field (v : JValue) : String :=
  if !truthy v then ""
  else
    let s := last_n_chars v 18
    if s.length < 18 then
      let s14 := last_n_chars v 14
      if s14 = "" then "" else locationFallback s14
    else locationMain s

/-- Hex string to byte list (`binascii.unhexlify`): every pair of hex
digits becomes one byte; odd length or a non-hex digit fails. -/
def hexPairsToBytes : List Char → Option (List ℕ)
  | [] => some []
  | [_] => none
  | a :: b :: rest => do
    let x ← hexDigitVal a
    let y ← hexDigitVal b
    let r ← hexPairsToBytes rest
    pure ((16 * x + y) :: r)

/-- `imei_from_user_equipment_value`: optionally hex-decode to ASCII
(ignoring non-ASCII bytes; falling back to `str(value)` when the input is
not an even-length hex string or decodes to an empty string), keep the
characters at even 1-based positions, strip non-digits, and truncate to 16
digits or right-pad with `'0'`. -/
def imei_from_user_equipment_value (v : JValue) : String :=
  if !truthy v then ""
  else
    let decoded : Option String :=
      match v with
      | .str s =>
        match hexPairsToBytes s.data with
        | some bs =>
          let d := String.mk ((bs.filter (· ≤ 127)).map Char.ofNat)
          if d = "" then none else some d
        | none => none
      | _ => none
    let src := decoded.getD (pyStr v)
    let even_chars := (src.data.enum.filter (fun p => (p.1 + 1) % 2 = 0)).map Prod.snd
    let digits := String.mk (even_chars.filter Char.isDigit)
    if 16 ≤ digits.length then digits.take 16
    else digits ++ String.mk (List.replicate (16 - digits.length) '0')

/-- `safe_get` with a key path (the only form the mappers use: every step
in `map_voice` is a string key).  Returns the default `None` the instant a
step is absent or the current node is not a dict. -/
def safe_get (node : JValue) : List String → JValue
  | [] => node
  | k :: rest =>
    match node with
    | .obj kvs =>
      match kvs.lookup k with
      | some v => safe_get v rest
      | none => .null
    | _ => .null

/-- The test `safe_get(x, ["recordProperty"]) == name` (Python equality of
an arbitrary value against a string literal holds only for that string). -/
def hasProp (v : JValue) (name : String) : Bool :=
  beqJ (safe_get v ["recordProperty"]) (.str name)

/-- The ubiquitous `safe_get(x, ["recordSubExtensions"], []) or []` loop
source, as a list. -/
def subExts (v : JValue) : List JValue :=
  jlist (pyOr (safe_get v ["recordSubExtensions"]) (.arr []))

/-- The `safe_get(x, ["recordElements"], {}) or {}` element dict. -/
def recElems (v : JValue) : JValue :=
  pyOr (safe_get v ["recordElements"]) (.obj [])

/-- Python `a or b` on optional Decimals: `None` and `Decimal(0)` are
falsy. -/
def pyOrDec (a b : Option ℚ) : Option ℚ :=
  match a with
  | some q => if q = 0 then b else a
  | none => b

/-- `fmt_decimal_to_float`: the exact value of `float(d)` on the rational
model (`None` maps to `None`); binary-float rounding is not modelled. -/
def fmt_decimal_to_float (d : Option ℚ) : Option ℚ := d

/-- Truthiness of an optional Python string (`None` and `""` are falsy). -/
def optStrTruthy : Option String → Bool
  | some s => s ≠ ""
  | none => false

/-- The canonical ordered list of EL_* output fields of the voice
warehouse mapper (121 names, transcribed in declaration order). -/
def CANONICAL_FIELDS : List String :=
  ["EL_CDR_ID","EL_SRC_CDR_ID","EL_CUST_LOCAL_START_DATE","EL_SESSION_ID","EL_ACTUAL_USAGE","EL_RATE_USAGE","EL_DEBIT_AMOUNT","EL_FREE_UNIT_AMOUNT_OF_DURATION",
   "EL_ACCT_BALANCE_ID1","EL_BALANCE_TYPE1","EL_CUR_BALANCE1","EL_CHG_BALANCE1","EL_RATE_ID1",
   "EL_ACCT_BALANCE_ID2","EL_BALANCE_TYPE2","EL_CUR_BALANCE2","EL_CHG_BALANCE2","EL_RATE_ID2",
   "EL_ACCT_BALANCE_ID3","EL_BALANCE_TYPE3","EL_CUR_BALANCE3","EL_CHG_BALANCE3","EL_RATE_ID3",
   "EL_ACCT_BALANCE_ID4","EL_BALANCE_TYPE4","EL_CUR_BALANCE4","EL_CHG_BALANCE4","EL_RATE_ID4",
   "EL_ACCT_BALANCE_ID5","EL_BALANCE_TYPE5","EL_CUR_BALANCE5","EL_CHG_BALANCE5","EL_RATE_ID5",
   "EL_BUCKET_BALANCE_ID1","EL_BUCKET_BALANCE_TYPE1","EL_BUCKET_CUR_BALANCE1","EL_BUCKET_CHG_BALANCE1","EL_BUCKET_RATE_ID1",
   "EL_BUCKET_BALANCE_ID2","EL_BUCKET_BALANCE_TYPE2","EL_BUCKET_CUR_BALANCE2","EL_BUCKET_CHG_BALANCE2","EL_BUCKET_RATE_ID2",
   "EL_BUCKET_BALANCE_ID3","EL_BUCKET_BALANCE_TYPE3","EL_BUCKET_CUR_BALANCE3","EL_BUCKET_CHG_BALANCE3","EL_BUCKET_RATE_ID3",
   "EL_BUCKET_BALANCE_ID4","EL_BUCKET_BALANCE_TYPE4","EL_BUCKET_CUR_BALANCE4","EL_BUCKET_CHG_BALANCE4","EL_BUCKET_RATE_ID4",
   "EL_BUCKET_BALANCE_ID5","EL_BUCKET_BALANCE_TYPE5","EL_BUCKET_CUR_BALANCE5","EL_BUCKET_CHG_BALANCE5","EL_BUCKET_RATE_ID5",
   "EL_CALLING_PARTY_NUMBER","EL_CALLED_PARTY_NUMBER","EL_CALLING_PARTY_IMSI","EL_CALLED_PARTY_IMSI","EL_SERVICE_FLOW",
   "EL_CALLING_LOCATION_INFO","EL_CALLED_LOCATION_INFO","EL_SEND_RESULT","EL_IMEI","EL_REFUND_INDICATOR",
   "EL_MAIN_OFFERING_ID","EL_CHARGING_PARTY_NUMBER","EL_CHARGE_PARTY_IND","EL_PAY_TYPE","EL_ON_NET_INDICATOR",
   "EL_ROAM_STATE","EL_OPPOSE_NETWORK_TYPE","EL_CALLING_VPN_TOP_GROUP_NUMBER","EL_CALLING_VPN_GROUP_NUMBER","EL_CALLING_VPN_SHORT_NUMBERs",
   "EL_CALLED_VPN_TOP_GROUP_NUMBER","EL_CALLED_VPN_GROUP_NUMBER","EL_CALLED_VPN_SHORT_NUMBER","EL_LAST_EFFECT_OFFERING","EL_ALTERNATE_ID",
   "EL_HOME_ZONE_ID","EL_USER_STATE","EL_PAY_DEFAULT_ACCT_ID","EL_TAX1","EL_TAX2",
   "EL_USER_GROUP_ID","EL_BUSINESS_TYPE","EL_SUBSCRIBER_KEY","EL_ACCOUNT_KEY","EL_DISCOUNT_OF_LAST_EFF_PROD",
   "EL_ADDITIONALBALANCEINFO_CHARGINGSERVICENAME","EL_ADDITIONALBALANCEINFO_USAGETYPE","EL_ADDITIONALBALANCEINFO_USEDAS",
   "EL_ADDITIONALBALANCEINFO_BUCKETINFO_BUCKETNAME","EL_ADDITIONALBALANCEINFO_BUCKETINFO_BUCKETUNITTYPE","EL_ADDITIONALBALANCEINFO_BUCKETINFO_BUCKETKINDOFUNIT",
   "EL_ADDITIONALBALANCEINFO_BUCKETINFO_BUCKETBALANCEBEFORE","EL_ADDITIONALBALANCEINFO_BUCKETINFO_BUCKETBALANCEAFTER","EL_ADDITIONALBALANCEINFO_BUCKETINFO_CARRYOVERBUCKET",
   "EL_ADDITIONALBALANCEINFO_BUCKETINFO_BUCKETCOMMITEDUNITS","EL_ADDITIONALBALANCEINFO_BUCKETINFO_BUCKETRESERVEDUNITS","EL_ADDITIONALBALANCEINFO_BUCKETINFO_RATEID",
   "EL_ADDITIONALBALANCEINFO_BUCKETINFO_PRIMARYCOSTCOMMITTED","EL_ADDITIONALBALANCEINFO_BUCKETINFO_SECONDARYCOSTCOMMITTED","EL_ADDITIONALBALANCEINFO_BUCKETINFO_TAXATIONID",
   "EL_ADDITIONALBALANCEINFO_BUCKETINFO_TAXRATEAPPLIED","EL_ADDITIONALBALANCEINFO_BUCKETINFO_COMMITTEDTAXAMOUNT","EL_ADDITIONALBALANCEINFO_BUCKETINFO_TOTALTAXAMOUNT",
   "EL_ADDITIONALBALANCEINFO_BUCKETINFO_TARIFFID","EL_ADDITIONALBALANCEINFO_BUCKETINFO_TOTALUNITSCHARGED",
   "EL_ADDITIONALBALANCEINFO_BUCKETINFO_TOTALTIMECHARGED","EL_ADDITIONALBALANCEINFO_BUCKETINFO_ROUNDEDTIMECHARGED","EL_ADDITIONALBALANCEINFO_BUCKETINFO_DELTATIME",
   "EL_UNLTD_BUNDLE_NAME","EL_UNLTD_TOTAL_TIME_CHARGED","EL_UNLTD_ROUNDED_UNITS_CHARGED","EL_UNLTD_BUNDLE_UNIT_TYPE","EL_ORIG_LOCATION"]

/-- The explicit numeric-field set of `enforce_canonical` (those fields
default to `0.0`, all others to `""`). -/
def numeric_fields : List String :=
  ["EL_DEBIT_AMOUNT","EL_ON_NET_INDICATOR","EL_TAX1","EL_TAX2",
   "EL_UNLTD_ROUNDED_UNITS_CHARGED","EL_UNLTD_TOTAL_TIME_CHARGED",
   "EL_CUR_BALANCE1","EL_CHG_BALANCE1","EL_CUR_BALANCE2","EL_CHG_BALANCE2",
   "EL_CUR_BALANCE3","EL_CHG_BALANCE3","EL_CUR_BALANCE4","EL_CHG_BALANCE4",
   "EL_CUR_BALANCE5","EL_CHG_BALANCE5"]

/-- The value `enforce_canonical` gives one canonical key: the derived
map's value when present, non-`None` and non-`""`, else `0.0` for the
numeric fields and `""` otherwise. -/
def canonicalValue (mapped : List (String × JValue)) (key : String) : JValue :=
  let dflt : JValue := if key ∈ numeric_fields then .num 0 else .str ""
  match mapped.lookup key with
  | none => dflt
  | some .null => dflt
  | some (.str "") => dflt
  | some v => v

/-- `enforce_canonical`: re-project a derived field map onto
`CANONICAL_FIELDS` in order. -/
def enforce_canonical (mapped : List (String × JValue)) : List (String × JValue) :=
  CANONICAL_FIELDS.map (fun key => (key, canonicalValue mapped key))

/-- First `listOfMscc` extension (the `for ext in extensions` search with
`break`). -/
def findListOfMscc (extensions : List JValue) : Option JValue :=
  extensions.find? (fun e => hasProp e "listOfMscc")

/-- The `mscc` iteration source: sub-extensions of the first `listOfMscc`
block, or nothing when that block is absent (every `if list_of_mscc_ext:`
guarded loop of the source runs over this list). -/
def msccListOf (extensions : List JValue) : List JValue :=
  match findListOfMscc extensions with
  | some e => subExts e
  | none => []

/-- `EL_ACTUAL_USAGE` search: the first `mscc` block whose
`totalTimeConsumed` parses as a decimal (blocks with an absent or
unparseable value are skipped, exactly as the source's `break` only fires
once a parse succeeded). -/
def elActualUsage (msccList : List JValue) : Option ℚ :=
  msccList.findSome? (fun m =>
    if hasProp m "mscc" then
      fmt_decimal_to_float (to_decimal (jget (recElems m) "totalTimeConsumed"))
    else none)

/-- One `chargingServiceInfo` step of the `EL_DEBIT_AMOUNT` /
`EL_FREE_UNIT_AMOUNT_OF_DURATION` loop, updating the pair of optional
accumulators: with no `bucketInfo` sibling and a truthy `accountInfo`, the
debit comes only from the explicit committed values
(`accountBalanceCommittedBR`, then `accountBalanceCommitted`) and the free
units from `noCharge.noChargeCommittedUnits`; otherwise the debit falls
back to `accountBalanceBefore - accountBalanceAfter`. -/
def applyChargeRules (s3 : JValue) (st : Option ℚ × Option ℚ) :
    Option ℚ × Option ℚ :=
  let s4s := subExts s3
  let has_bucket := s4s.any (fun s4 => hasProp s4 "bucketInfo")
  let account_info := s4s.foldl (fun acc s4 =>
    if hasProp s4 "accountInfo" then recElems s4 else acc) (JValue.obj [])
  let nocharge_val := s4s.foldl (fun acc s4 =>
    if hasProp s4 "noCharge" then jget (recElems s4) "noChargeCommittedUnits" else acc)
    JValue.null
  let (d, f) := st
  if !has_bucket && truthy account_info then
    let v := match jget account_info "accountBalanceCommittedBR" with
      | .null => jget account_info "accountBalanceCommitted"
      | w => w
    let d' := match d with
      | some _ => d
      | none =>
        match fmt_decimal_to_float (to_decimal v) with
        | some q => some q
        | none => d
    let f' := match nocharge_val, f with
      | .null, _ => f
      | _, some _ => f
      | nv, none => fmt_decimal_to_float (to_decimal nv)
    (d', f')
  else
    match d with
    | some _ => (d, f)
    | none =>
      if truthy account_info then
        match to_decimal (jget account_info "accountBalanceBefore"),
              to_decimal (jget account_info "accountBalanceAfter") with
        | some bef, some aft => (fmt_decimal_to_float (some (bef - aft)), f)
        | _, _ => (d, f)
      else (d, f)

/-- The `EL_DEBIT_AMOUNT` / free-units loop over `mscc` blocks, including
the early `break` once both accumulators are set (non-`mscc` entries are
skipped by `continue` before that check, as in the source). -/
def debitFreeLoop : List JValue → Option ℚ × Option ℚ → Option ℚ × Option ℚ
  | [], st => st
  | m :: rest, st =>
    if !hasProp m "mscc" then debitFreeLoop rest st
    else
      let st' := (subExts m).foldl (fun st sub =>
        if hasProp sub "deviceInfo" then
          (subExts sub).foldl (fun st s2 =>
            if hasProp s2 "subscriptionInfo" then
              (subExts s2).foldl (fun st s3 =>
                if hasProp s3 "chargingServiceInfo" then applyChargeRules s3 st
                else st) st
            else st) st
        else st) st
      if st'.1.isSome && st'.2.isSome then st'
      else debitFreeLoop rest st'

/-- The part of `ds` after the first `-` (`ds.split('-', 1)[1]`); `""`
when there is no dash (the call site guards on an `imsi-` lead). -/
def afterFirstDash (s : String) : String :=
  match s.data.dropWhile (fun c => c != '-') with
  | [] => ""
  | _ :: rest => String.mk rest

/-- `extract_imsi_from_extensions` subscription-entry collection: the
`subscriptionId` children of the first `listOfSubscriptionID` extension,
as (type, data) string pairs; entries with no data are skipped and an
`imsi-` lead on the data is stripped. -/
def subscriptionEntries (extensions : List JValue) : List (String × String) :=
  match extensions.find? (fun e => hasProp e "listOfSubscriptionID") with
  | none => []
  | some sub_ext =>
    (subExts sub_ext).filterMap (fun sid =>
      if hasProp sid "subscriptionId" then
        let elems := recElems sid
        let dtype := pyOr (jget elems "subscriptionIDType") (jget elems "subscriptionIdType")
        let ddata := pyOr (jget elems "subscriptionIDData") (jget elems "subscriptionIdData")
        match ddata with
        | .null => none
        | dv =>
          let ds := pyStr dv
          let ds := if startsStr (lowerStr ds) "imsi-" then afterFirstDash ds else ds
          some ((match dtype with | .null => "" | t => pyStr t), ds)
      else none)

/-- `extract_imsi_from_extensions`: calling IMSI (first type-"1" entry)
when the event label is 1 or 821, called IMSI when it is 2. -/
def extract_imsi_from_extensions (extensions : List JValue) (event_label : JValue) :
    String × String :=
  let subs := subscriptionEntries extensions
  let calling :=
    if pyStr event_label = "1" ∨ pyStr event_label = "821" then
      ((subs.find? (fun s => s.1 = "1")).map Prod.snd).getD ""
    else ""
  let called :=
    if pyStr event_label = "2" then
      ((subs.find? (fun s => s.1 = "1")).map Prod.snd).getD ""
    else ""
  (calling, called)

/-- `extract_subid_type0`: data of the first `subscriptionId` whose type
renders as `"0"` (entries with no data are skipped). -/
def extract_subid_type0 (extensions : List JValue) : Option String :=
  match extensions.find? (fun e => hasProp e "listOfSubscriptionID") with
  | none => none
  | some sub_ext =>
    (subExts sub_ext).findSome? (fun sid =>
      if hasProp sid "subscriptionId" then
        let elems := recElems sid
        let dtype := pyOr (jget elems "subscriptionIDType") (jget elems "subscriptionIdType")
        let ddata := pyOr (jget elems "subscriptionIDData") (jget elems "subscriptionIdData")
        match ddata with
        | .null => none
        | dv => if pyStr dtype = "0" then some (pyStr dv) else none
      else none)

/-- `extract_any_subid`: data of the first `subscriptionId` that has any
data at all. -/
def extract_any_subid (extensions : List JValue) : Option String :=
  match extensions.find? (fun e => hasProp e "listOfSubscriptionID") with
  | none => none
  | some sub_ext =>
    (subExts sub_ext).findSome? (fun sid =>
      if hasProp sid "subscriptionId" then
        let elems := recElems sid
        let ddata := pyOr (jget elems "subscriptionIDData") (jget elems "subscriptionIdData")
        match ddata with
        | .null => none
        | dv => some (pyStr dv)
      else none)

/-- Calling-number normalisation: a nonempty string not starting with
`251` and shorter than 10 characters has its leading zeros stripped (when
it starts with `0`) and `251` prepended.  Falsy values are untouched;
Python raises AttributeError on truthy non-strings (totalised to the
identity, never reached by the theorems below). -/
def normalizeCallingNumber (v : JValue) : JValue :=
  match v with
  | .str s =>
    if s ≠ "" ∧ !startsStr s "251" ∧ s.length < 10 then
      let s1 := if startsStr s "0" then String.mk (s.data.dropWhile (· = '0')) else s
      .str ("251" ++ s1)
    else .str s
  | w => w

/-- Called-number normalisation: as the calling side, except that the
`251` prepend happens only inside the leading-`0` branch (a short number
not starting with `0` is left unchanged), exactly as the source
indentation has it. -/
def normalizeCalledNumber (v : JValue) : JValue :=
  match v with
  | .str s =>
    if s ≠ "" ∧ !startsStr s "251" ∧ s.length < 10 then
      if startsStr s "0" then .str ("251" ++ String.mk (s.data.dropWhile (· = '0')))
      else .str s
    else .str s
  | w => w

/-- One collected `bucketInfo` element dict of the phase-2 scan (exact
decimal values for the balance fields, raw values for the rest). -/
structure BucketRec where
  bucketName : JValue
  bucketUnitType : JValue
  bucketBalanceBefore : Option ℚ
  bucketBalanceAfter : Option ℚ
  bucketCommitedUnits : Option ℚ
  rateId : JValue

/-- Build a `BucketRec` from a `bucketInfo` element dict (`bucketCommitedUnits`
tolerates both source spellings via Python `or`). -/
def mkBucketRec (be : JValue) : BucketRec :=
  { bucketName := pyOr (jget be "bucketName") (.str "")
    bucketUnitType := pyOr (jget be "bucketUnitType") (.str "")
    bucketBalanceBefore := to_decimal (jget be "bucketBalanceBefore")
    bucketBalanceAfter := to_decimal (jget be "bucketBalanceAfter")
    bucketCommitedUnits := to_decimal (pyOr (jget be "bucketCommitedUnits") (jget be "bucketCommittedUnits"))
    rateId := pyOr (jget be "rateId") (.str "") }

/-- Phase-2 scan of `map_voice`: walk
`mscc → deviceInfo → subscriptionInfo` blocks and split them into
account-only entries `(bundleName, accountInfo-elements)` (first
`accountInfo` per subscription, kept only when truthy) and
bucket-bearing entries `(bundleName, buckets)` (all `bucketInfo` blocks
under the subscription's `chargingServiceInfo` children, in order). -/
def collectPhase2 (msccList : List JValue) :
    List (JValue × JValue) × List (JValue × List BucketRec) :=
  msccList.foldl (fun st m =>
    if hasProp m "mscc" then
      (subExts m).foldl (fun st sub =>
        if hasProp sub "deviceInfo" then
          (subExts sub).foldl (fun st s2 =>
            if hasProp s2 "subscriptionInfo" then
              let bundle := pyOr (safe_get s2 ["recordElements", "bundleName"])
                (pyOr (safe_get s2 ["recordElements", "bundle_name"]) (.str ""))
              let scan := (subExts s2).foldl
                (fun (acc : Bool × Option JValue × List BucketRec) s3 =>
                  if hasProp s3 "chargingServiceInfo" then
                    (subExts s3).foldl
                      (fun (acc : Bool × Option JValue × List BucketRec) s4 =>
                        let acc := if hasProp s4 "bucketInfo" then
                            (true, acc.2.1, acc.2.2 ++ [mkBucketRec (recElems s4)])
                          else acc
                        if hasProp s4 "accountInfo" && acc.2.1.isNone then
                          (acc.1, some (recElems s4), acc.2.2)
                        else acc) acc
                  else acc) (false, none, [])
              let (has_bucket, acct_info, buckets) := scan
              if has_bucket && !buckets.isEmpty then (st.1, st.2 ++ [(bundle, buckets)])
              else
                match acct_info with
                | some ai => if truthy ai then (st.1 ++ [(bundle, ai)], st.2) else st
                | none => st
            else st) st
        else st) st
    else st) ([], [])

/-- The committed fallback of an account slot's charged balance:
`(accountBalanceCommitted or accountBalanceCommittedBR or 0) +
(secondaryCostCommitted or 0)` with Python Decimal truthiness (0 falsy). -/
def acctCommittedFallback (acct : JValue) : ℚ :=
  let committed := pyOrDec (to_decimal (jget acct "accountBalanceCommitted"))
    (pyOrDec (to_decimal (jget acct "accountBalanceCommittedBR")) (some 0))
  let secondary := pyOrDec (to_decimal (jget acct "secondaryCostCommitted")) (some 0)
  committed.getD 0 + secondary.getD 0

/-- The five fields of account slot `idx+1` (`idx < 5`): populated from
`account_only[idx]` when it exists, otherwise type defaults.  The source's
`if idx < len(account_only)` branch assigns all five keys at once; it is
transcribed per field (each field carrying its branch value) so the field
list itself does not depend on the record. -/
def acctSlotGroup (aos : List (JValue × JValue)) (idx : ℕ) : List (String × JValue) :=
  let n := toString (idx + 1)
  let e := aos.get? idx
  let curOf : JValue → Option ℚ := fun acct => to_decimal (jget acct "accountBalanceAfter")
  [("EL_ACCT_BALANCE_ID" ++ n,
    match e with
    | some entry => pyOr (jget entry.2 "accountID") (.str "")
    | none => .str ""),
   ("EL_BALANCE_TYPE" ++ n,
    match e with
    | some entry => pyOr (jget entry.2 "accountType") (.str "")
    | none => .str ""),
   ("EL_CUR_BALANCE" ++ n, .num (match e with
    | some entry => (fmt_decimal_to_float (curOf entry.2)).getD 0
    | none => 0)),
   ("EL_CHG_BALANCE" ++ n, .num (match e with
    | some entry =>
      match to_decimal (jget entry.2 "accountBalanceBefore"), curOf entry.2 with
      | some b, some c =>
        if 0 ≤ b - c then (fmt_decimal_to_float (some (b - c))).getD 0
        else acctCommittedFallback entry.2
      | _, _ => 0
    | none => 0)),
   ("EL_RATE_ID" ++ n,
    match e with
    | some entry => pyOr (jget entry.2 "rateId") (.str "")
    | none => .str "")]

/-- The `for idx in range(5)` account-slot loop. -/
def acctSlots (aos : List (JValue × JValue)) : List (String × JValue) :=
  (List.range 5).flatMap (fun idx => acctSlotGroup aos idx)

/-- Charged-balance string of one collected bucket: `before - after` when
both are present and the difference is non-negative, otherwise the
committed units (with Python Decimal truthiness), rendered float-style. -/
def bucketChgEntry (b : BucketRec) : String :=
  match b.bucketBalanceBefore, b.bucketBalanceAfter with
  | some bef, some aft =>
    if 0 ≤ bef - aft then pyFloatStr ((fmt_decimal_to_float (some (bef - aft))).getD 0)
    else pyFloatStr ((fmt_decimal_to_float (pyOrDec b.bucketCommitedUnits (some 0))).getD 0)
  | _, _ => pyFloatStr ((fmt_decimal_to_float (pyOrDec b.bucketCommitedUnits (some 0))).getD 0)

/-- The five fields of bucket slot `idx+1` (`idx < 5`): populated from
`bucket_subs[idx]` when it exists (comma-joining the per-bucket values of
that one subscription block), otherwise type defaults (note the numeric
`0.0` default of the CUR/CHG columns against the string values of
populated slots).  Transcribed per field like the account slots. -/
def bucketSlotGroup (bss : List (JValue × List BucketRec)) (idx : ℕ) :
    List (String × JValue) :=
  let n := toString (idx + 1)
  let e := bss.get? idx
  [("EL_BUCKET_BALANCE_ID" ++ n,
    match e with
    | some entry =>
      let bundle := pyOr entry.1 (.str "")
      let names := (entry.2.filter (fun b => truthy b.bucketName)).map (fun b => pyStr b.bucketName)
      if truthy bundle ∧ names ≠ [] then
        .str (pyStr bundle ++ "-" ++ String.intercalate "," names)
      else pyOr bundle (.str (String.intercalate "," names))
    | none => .str ""),
   ("EL_BUCKET_BALANCE_TYPE" ++ n,
    match e with
    | some entry => .str (String.intercalate ","
        ((entry.2.filter (fun b => truthy b.bucketUnitType)).map (fun b => pyStr b.bucketUnitType)))
    | none => .str ""),
   ("EL_BUCKET_CUR_BALANCE" ++ n,
    match e with
    | some entry => .str (String.intercalate "," (entry.2.map (fun b =>
        match b.bucketBalanceAfter with
        | some q => pyFloatStr ((fmt_decimal_to_float (some q)).getD 0)
        | none => "0.0")))
    | none => .num 0),
   ("EL_BUCKET_CHG_BALANCE" ++ n,
    match e with
    | some entry => .str (String.intercalate "," (entry.2.map bucketChgEntry))
    | none => .num 0),
   ("EL_BUCKET_RATE_ID" ++ n,
    match e with
    | some entry => .str (String.intercalate ","
        ((entry.2.filter (fun b => truthy b.rateId)).map (fun b => pyStr b.rateId)))
    | none => .str "")]

/-- The `for idx in range(5)` bucket-slot loop. -/
def bucketSlots (bss : List (JValue × List BucketRec)) : List (String × JValue) :=
  (List.range 5).flatMap (fun idx => bucketSlotGroup bss idx)

/-- One collected `additionalBalanceInfo` block of the phase-4 scan, as the
dict of the 23 attributes the source collects (adjust-balance attributes
from the first `adjustBalanceInfo` child; bucket attributes from the first
`bucketInfo` under it, falling back to the first `bucketInfo` directly
under the block when that one is falsy). -/
def mkAdditionalBlock (s4 : JValue) : List (String × JValue) :=
  let ab_elems := recElems s4
  let chargingName := pyOr (jget ab_elems "chargingServiceName")
    (pyOr (jget ab_elems "chargingservicename") (.str ""))
  let adj := (subExts s4).find? (fun s5 => hasProp s5 "adjustBalanceInfo")
  let adj_elems := match adj with
    | some a => recElems a
    | none => JValue.obj []
  let fromAdj := match adj with
    | some a =>
      match (subExts a).find? (fun b => hasProp b "bucketInfo") with
      | some b => recElems b
      | none => JValue.obj []
    | none => JValue.obj []
  let bucket_elems :=
    if truthy fromAdj then fromAdj
    else
      match (subExts s4).find? (fun b => hasProp b "bucketInfo") with
      | some b => recElems b
      | none => JValue.obj []
  [("chargingServiceName", chargingName),
   ("usageType", pyOr (jget adj_elems "usageType") (.str "")),
   ("usedAs", pyOr (jget adj_elems "usedAs") (.str "")),
   ("bucketName", pyOr (jget bucket_elems "bucketName") (.str "")),
   ("bucketUnitType", pyOr (jget bucket_elems "bucketUnitType") (.str "")),
   ("bucketKindOfUnit", pyOr (jget bucket_elems "bucketKindOfUnit") (.str "")),
   ("bucketBalanceBefore", jget bucket_elems "bucketBalanceBefore"),
   ("bucketBalanceAfter", jget bucket_elems "bucketBalanceAfter"),
   ("carryOverBucket", pyOr (jget bucket_elems "carryOverBucket") (.str "")),
   ("bucketCommitedUnits", pyOr (jget bucket_elems "bucketCommitedUnits") (jget bucket_elems "bucketCommittedUnits")),
   ("bucketReservedUnits", jget bucket_elems "bucketReservedUnits"),
   ("rateId", pyOr (jget bucket_elems "rateId") (.str "")),
   ("primaryCostCommitted", jget bucket_elems "primaryCostCommitted"),
   ("secondaryCostCommitted", jget bucket_elems "secondaryCostCommitted"),
   ("taxationID", pyOr (jget bucket_elems "taxationID") (pyOr (jget bucket_elems "taxationId") (.str ""))),
   ("taxRateApplied", jget bucket_elems "taxRateApplied"),
   ("committedTaxAmount", jget bucket_elems "committedTaxAmount"),
   ("totalTaxAmount", jget bucket_elems "totalTaxAmount"),
   ("tariffID", pyOr (jget bucket_elems "tariffID") (pyOr (jget bucket_elems "tariffId") (.str ""))),
   ("totalUnitsCharged", jget bucket_elems "totalUnitsCharged"),
   ("totalTimeCharged", jget bucket_elems "totalTimeCharged"),
   ("roundedTimeCharged", jget bucket_elems "roundedTimeCharged"),
   ("deltaTime", jget bucket_elems "deltaTime")]

/-- Phase-4 scan: all `additionalBalanceInfo` blocks under
`mscc → deviceInfo → subscriptionInfo → chargingServiceInfo`, in document
order. -/
def collectAdditionalBlocks (msccList : List JValue) : List (List (String × JValue)) :=
  msccList.flatMap (fun m =>
    if hasProp m "mscc" then
      (subExts m).flatMap (fun sub =>
        if hasProp sub "deviceInfo" then
          (subExts sub).flatMap (fun s2 =>
            if hasProp s2 "subscriptionInfo" then
              (subExts s2).flatMap (fun s3 =>
                if hasProp s3 "chargingServiceInfo" then
                  (subExts s3).filterMap (fun s4 =>
                    if hasProp s4 "additionalBalanceInfo" then some (mkAdditionalBlock s4)
                    else none)
                else [])
            else [])
        else [])
    else [])

/-- `_join_vals`: join the present, non-`None`, non-`""` values of one
attribute across the collected blocks with `,`, in order. -/
def joinVals (blocks : List (List (String × JValue))) (key : String) : String :=
  String.intercalate "," (blocks.filterMap (fun a =>
    match (a.lookup key).getD .null with
    | .null => none
    | .str "" => none
    | v => some (pyStr v)))

/-- Phase-5 unlimited-bundle detection over the account-only entries: the
first entry whose committed amount (`accountBalanceCommitted or
accountBalanceCommittedBR`, Python Decimal truthiness) is exactly 0 while
its total time (`totalTimeCharged or roundedTimeCharged`) is positive. -/
def unlimitedBundle (aos : List (JValue × JValue)) : Option (JValue × ℚ) :=
  aos.findSome? (fun entry =>
    let acct := pyOr entry.2 (.obj [])
    let bundle_name := pyOr entry.1 (.str "")
    let committed := pyOrDec (to_decimal (jget acct "accountBalanceCommitted"))
      (to_decimal (jget acct "accountBalanceCommittedBR"))
    let total_time := pyOrDec (to_decimal (jget acct "totalTimeCharged"))
      (to_decimal (jget acct "roundedTimeCharged"))
    match committed, total_time with
    | some c, some t => if c = 0 ∧ 0 < t then some (bundle_name, t) else none
    | _, _ => none)

/-- `map_voice` before canonical shaping: the derived field dict, written
as a literal association list holding each key's final value (several keys
are assigned twice in the source — `EL_SERVICE_FLOW` with the identical
expression, `EL_MAIN_OFFERING_ID` and the `EL_ADDITIONALBALANCEINFO_*`
family with a placeholder first — so the single entry here carries the
second, surviving value; dict entry order is irrelevant because
`enforce_canonical` re-projects by key).  The `EL_TAX1`/`EL_TAX2` branch
reading `account_only`/`bucket_subs` is dead in the source: the guard
`'account_only' in locals()` is evaluated before those names are assigned,
so only the CBL fallback survives. -/
def mapVoiceRaw (imei_normalize : Bool) (cdr : JValue) : List (String × JValue) :=
  let generic := pyOr (safe_get cdr ["original", "payload", "genericRecord"]) cdr
  let record_elems := recElems generic
  let extensions := jlist (pyOr (safe_get generic ["recordExtensions"]) (.arr []))
  let cbl := pyOr (jget cdr "CBL_TAG") (.obj [])
  let msccList := msccListOf extensions
  let actual_usage := elActualUsage msccList
  let debitFree := debitFreeLoop msccList (none, none)
  let event_label :=
    let e0 := match cbl with
      | .obj _ => jget cbl "EL_EVENT_LABEL_VAL"
      | _ => JValue.null
    match e0 with
    | .null => pyOr (jget record_elems "EL_EVENT_LABEL_VAL")
        (pyOr (jget record_elems "eventLabel") (jget record_elems "eventLabelValue"))
    | e => e
  let el_service_flow : JValue :=
    match msccList.find? (fun m => hasProp m "mscc") with
    | some m => pyOr (jget (recElems m) "subRecordEventType") .null
    | none => .null
  let subrec_type := pyOr el_service_flow (pyOr (jget record_elems "subRecordEventType") (.str ""))
  let roaming_flag := upperStr (pyStr (pyOr (jget record_elems "roamingIndicator")
    (pyOr (jget record_elems "RoamingStatus") (.str ""))))
  let imsi := extract_imsi_from_extensions extensions event_label
  let subid0 := extract_subid_type0 extensions
  let any_subid := extract_any_subid extensions
  let cond_use_subid := (roaming_flag = "ROAMING" ∧ beqJ subrec_type (.str "MTC")) ∨
    beqJ subrec_type (.str "FWD")
  let calling_number : JValue :=
    if cond_use_subid ∧ optStrTruthy subid0 then .str (subid0.getD "")
    else if cond_use_subid ∧ optStrTruthy any_subid then .str (any_subid.getD "")
    else if optStrTruthy subid0 then .str (subid0.getD "")
    else if optStrTruthy any_subid then .str (any_subid.getD "")
    else pyOr (jget record_elems "callingPartyAddress")
      (pyOr (jget record_elems "originatorAddress")
        (pyOr (jget record_elems "callingParty") (.str "")))
  let calling_number := normalizeCallingNumber calling_number
  let called_number := normalizeCalledNumber
    (pyOr (jget record_elems "calledPartyAddress")
      (pyOr (jget record_elems "recipientAddress")
        (pyOr (jget record_elems "calledParty") (.str ""))))
  let user_loc := pyOr (jget record_elems "userLocationInformation")
    (pyOr (jget record_elems "origUserLocationInfo") (.str ""))
  let rat := pyOr (jget record_elems "rATType")
    (pyOr (jget record_elems "ratType") (jget record_elems "rAT"))
  let location_info : JValue :=
    if truthy user_loc then
      if pyStr rat = "6" then .str (decode_location_hex_field user_loc)
      else
        let tail := last_n_chars user_loc 13
        if 13 ≤ tail.length then
          .str (tail.take 5 ++ "-" ++ (tail.drop 5).take 4 ++ "-" ++ (tail.drop 9).take 4)
        else .str tail
    else .str ""
  let raw_imei := pyOr (jget record_elems "userEquipmentValue")
    (pyOr (jget record_elems "imei") (.str ""))
  let alt_ids : List String := extensions.flatMap (fun ext =>
    if hasProp ext "listOfMscc" then
      (subExts ext).flatMap (fun sub =>
        (subExts sub).flatMap (fun d =>
          if hasProp d "deviceInfo" then
            (subExts d).filterMap (fun s2 =>
              if hasProp s2 "subscriptionInfo" then
                let a := jget (recElems s2) "alternateId"
                if truthy a then some (pyStr a) else none
              else none)
          else []))
    else [])
  let main_off : JValue :=
    (msccList.findSome? (fun m =>
      if hasProp m "mscc" then
        (subExts m).findSome? (fun sub =>
          if hasProp sub "deviceInfo" then
            (subExts sub).findSome? (fun s2 =>
              if hasProp s2 "subscriptionInfo" then
                let bundle := pyOr (safe_get s2 ["recordElements", "bundleName"])
                  (pyOr (safe_get s2 ["recordElements", "bundle_name"]) (.str ""))
                let has_bucket := (subExts s2).any (fun s3 =>
                  hasProp s3 "chargingServiceInfo" &&
                  (subExts s3).any (fun s4 => hasProp s4 "bucketInfo"))
                if truthy bundle ∧ !has_bucket then some bundle else none
              else none)
          else none)
      else none)).getD (.str "")
  let el_tax1 := match cbl with
    | .obj _ => to_decimal (jget cbl "EL_TAX1")
    | _ => none
  let el_tax2 := match cbl with
    | .obj _ => to_decimal (jget cbl "EL_TAX2")
    | _ => none
  let phase2 := collectPhase2 msccList
  let account_only := phase2.1
  let bucket_subs := phase2.2
  let additional_blocks := collectAdditionalBlocks msccList
  let unltd := unlimitedBundle account_only
  [("EL_CDR_ID", pyOr (jget record_elems "sessionId") (pyOr (jget record_elems "recordId") (.str ""))),
   ("EL_SRC_CDR_ID", pyOr (jget record_elems "sessionSequenceNumber") (.str "")),
   ("EL_CUST_LOCAL_START_DATE", pyOr (jget record_elems "callAnswerTime")
     (pyOr (jget record_elems "recordOpeningTime")
       (pyOr (jget record_elems "generationTimestamp") (.str "")))),
   ("EL_SESSION_ID", pyOr (jget record_elems "sessionId") (.str "")),
   ("EL_ACTUAL_USAGE", .num (actual_usage.getD 0)),
   ("EL_RATE_USAGE", .num (actual_usage.getD 0)),
   ("EL_DEBIT_AMOUNT", .num (debitFree.1.getD 0)),
   ("EL_FREE_UNIT_AMOUNT_OF_DURATION",
     match debitFree.2 with
     | some q => JValue.num q
     | none => JValue.str ""),
   ("EL_SERVICE_FLOW", pyOr el_service_flow
     (pyOr (jget record_elems "subRecordEventType") (.str "VOICE"))),
   ("EL_CALLING_PARTY_NUMBER", calling_number),
   ("EL_CALLED_PARTY_NUMBER", called_number),
   ("EL_CALLING_PARTY_IMSI", .str imsi.1),
   ("EL_CALLED_PARTY_IMSI", .str imsi.2),
   ("EL_CALLING_LOCATION_INFO", location_info),
   ("EL_CALLED_LOCATION_INFO", location_info),
   ("EL_SEND_RESULT", pyOr (jget record_elems "resultCode") (.str "")),
   ("EL_IMEI", if imei_normalize then .str (imei_from_user_equipment_value raw_imei) else raw_imei),
   ("EL_REFUND_INDICATOR", .str ""),
   ("EL_MAIN_OFFERING_ID", main_off),
   ("EL_CHARGING_PARTY_NUMBER", calling_number),
   ("EL_CHARGE_PARTY_IND", .str ""),
   ("EL_PAY_TYPE", pyOr (jget record_elems "EL_PRE_POST")
     (pyOr (jget record_elems "prePost")
       (match cbl with
        | .obj _ => jget cbl "EL_PRE_POST"
        | _ => .str ""))),
   ("EL_ON_NET_INDICATOR", .num (match jget record_elems "isOnNet" with
     | .bool b => if b then 1 else 0
     | .str s => if lowerStr s = "true" then 1 else 0
     | _ => 0)),
   ("EL_ROAM_STATE", pyOr (jget record_elems "RoamingStatus")
     (pyOr (jget record_elems "roamingIndicator") (.str ""))),
   ("EL_OPPOSE_NETWORK_TYPE", pyOr (jget record_elems "rATType")
     (pyOr (jget record_elems "ratType") (.str ""))),
   ("EL_CALLING_VPN_TOP_GROUP_NUMBER", pyOr (jget record_elems "groupID") (.str "")),
   ("EL_CALLING_VPN_GROUP_NUMBER", .str ""),
   ("EL_CALLING_VPN_SHORT_NUMBERs", .str ""),
   ("EL_CALLED_VPN_TOP_GROUP_NUMBER", .str ""),
   ("EL_CALLED_VPN_GROUP_NUMBER", .str ""),
   ("EL_CALLED_VPN_SHORT_NUMBER", .str ""),
   ("EL_LAST_EFFECT_OFFERING", .str ""),
   ("EL_ALTERNATE_ID", if alt_ids ≠ [] then .str (String.intercalate "~" alt_ids) else .str ""),
   ("EL_HOME_ZONE_ID", .str ""),
   ("EL_USER_STATE", pyOr (jget record_elems "deviceState") (.str "")),
   ("EL_PAY_DEFAULT_ACCT_ID", .str ""),
   ("EL_TAX1", .num ((fmt_decimal_to_float el_tax1).getD 0)),
   ("EL_TAX2", .num ((fmt_decimal_to_float el_tax2).getD 0)),
   ("EL_USER_GROUP_ID", pyOr (jget record_elems "groupID") (.str ""))] ++
  acctSlots account_only ++ bucketSlots bucket_subs ++
  [("EL_ADDITIONALBALANCEINFO_CHARGINGSERVICENAME", .str (joinVals additional_blocks "chargingServiceName")),
   ("EL_ADDITIONALBALANCEINFO_USAGETYPE", .str (joinVals additional_blocks "usageType")),
   ("EL_ADDITIONALBALANCEINFO_USEDAS", .str (joinVals additional_blocks "usedAs")),
   ("EL_ADDITIONALBALANCEINFO_BUCKETINFO_BUCKETNAME", .str (joinVals additional_blocks "bucketName")),
   ("EL_ADDITIONALBALANCEINFO_BUCKETINFO_BUCKETUNITTYPE", .str (joinVals additional_blocks "bucketUnitType")),
   ("EL_ADDITIONALBALANCEINFO_BUCKETINFO_BUCKETKINDOFUNIT", .str (joinVals additional_blocks "bucketKindOfUnit")),
   ("EL_ADDITIONALBALANCEINFO_BUCKETINFO_BUCKETBALANCEBEFORE", .str (joinVals additional_blocks "bucketBalanceBefore")),
   ("EL_ADDITIONALBALANCEINFO_BUCKETINFO_BUCKETBALANCEAFTER", .str (joinVals additional_blocks "bucketBalanceAfter")),
   ("EL_ADDITIONALBALANCEINFO_BUCKETINFO_CARRYOVERBUCKET", .str (joinVals additional_blocks "carryOverBucket")),
   ("EL_ADDITIONALBALANCEINFO_BUCKETINFO_BUCKETCOMMITEDUNITS", .str (joinVals additional_blocks "bucketCommitedUnits")),
   ("EL_ADDITIONALBALANCEINFO_BUCKETINFO_BUCKETRESERVEDUNITS", .str (joinVals additional_blocks "bucketReservedUnits")),
   ("EL_ADDITIONALBALANCEINFO_BUCKETINFO_RATEID", .str (joinVals additional_blocks "rateId")),
   ("EL_ADDITIONALBALANCEINFO_BUCKETINFO_PRIMARYCOSTCOMMITTED", .str (joinVals additional_blocks "primaryCostCommitted")),
   ("EL_ADDITIONALBALANCEINFO_BUCKETINFO_SECONDARYCOSTCOMMITTED", .str (joinVals additional_blocks "secondaryCostCommitted")),
   ("EL_ADDITIONALBALANCEINFO_BUCKETINFO_TAXATIONID", .str (joinVals additional_blocks "taxationID")),
   ("EL_ADDITIONALBALANCEINFO_BUCKETINFO_TAXRATEAPPLIED", .str (joinVals additional_blocks "taxRateApplied")),
   ("EL_ADDITIONALBALANCEINFO_BUCKETINFO_COMMITTEDTAXAMOUNT", .str (joinVals additional_blocks "committedTaxAmount")),
   ("EL_ADDITIONALBALANCEINFO_BUCKETINFO_TOTALTAXAMOUNT", .str (joinVals additional_blocks "totalTaxAmount")),
   ("EL_ADDITIONALBALANCEINFO_BUCKETINFO_TARIFFID", .str (joinVals additional_blocks "tariffID")),
   ("EL_ADDITIONALBALANCEINFO_BUCKETINFO_TOTALUNITSCHARGED", .str (joinVals additional_blocks "totalUnitsCharged")),
   ("EL_ADDITIONALBALANCEINFO_BUCKETINFO_TOTALTIMECHARGED", .str (joinVals additional_blocks "totalTimeCharged")),
   ("EL_ADDITIONALBALANCEINFO_BUCKETINFO_ROUNDEDTIMECHARGED", .str (joinVals additional_blocks "roundedTimeCharged")),
   ("EL_ADDITIONALBALANCEINFO_BUCKETINFO_DELTATIME", .str (joinVals additional_blocks "deltaTime")),
   ("EL_UNLTD_BUNDLE_NAME",
     match unltd with
     | some (b, _) => b
     | none => JValue.str ""),
   ("EL_UNLTD_TOTAL_TIME_CHARGED", .num (match unltd with
     | some (_, t) => (fmt_decimal_to_float (some t)).getD 0
     | none => 0)),
   ("EL_UNLTD_ROUNDED_UNITS_CHARGED", .str ""),
   ("EL_UNLTD_BUNDLE_UNIT_TYPE",
     match unltd with
     | some _ => JValue.str "TIME"
     | none => JValue.str "")]

/-- `map_voice`: the derived field dict re-projected onto the canonical
field list. -/
def map_voice (imei_normalize : Bool) (cdr : JValue) : List (String × JValue) :=
  enforce_canonical (mapVoiceRaw imei_normalize cdr)

/-!
## "COMMAN BLN"/cbl.py : condition evaluator and routing

Conditions come from JSON config, so a condition value is itself a
`JValue`.  Python's `isinstance(condition, (int, float))` test catches
booleans too (`bool` is a subtype of `int`), so the dedicated
`isinstance(condition, bool)` branch of the source is unreachable and a
boolean condition is compared numerically as 1/0; the embedding mirrors
that.  `float(...)` accepts exponent forms and `inf`/`nan`, which the
parser here does not model (no routing config below uses them).
-/

/-- Python whitespace test for `str.strip()`/`float()` trimming. -/
def isPySpace (c : Char) : Bool :=
  c = ' ' ∨ c = '\t' ∨ c = '\n' ∨ c = '\r' ∨ c = '\x0b' ∨ c = '\x0c'

/-- `str.strip()`. -/
def trimStr (s : String) : String :=
  String.mk (((s.data.dropWhile isPySpace).reverse.dropWhile isPySpace).reverse)

/-- Python `float(str)` on plain decimal literals (whitespace trimmed). -/
def parseFloatString (s : String) : Option ℚ :=
  parseDecimalString (trimStr s)

/-- Python `float(val)` on a JSON value: numbers as themselves, booleans
as 1/0, numeric strings parsed; everything else raises (modelled as
`None`, exactly the source's `except` path). -/
def pyFloat : JValue → Option ℚ
  | .num q => some q
  | .bool b => some (if b then 1 else 0)
  | .str s => parseFloatString s
  | _ => none

/-- One `<op>` comparison of the condition DSL: numeric comparison when
the right-hand side parses as a float (`False` when the record value does
not), else string equality for `==`/`!=` and `False` for the ordered
operators. -/
def condOp (val : JValue) (val_num : Option ℚ) (op rhsRaw : String) : Bool :=
  let rhs := trimStr rhsRaw
  match parseFloatString rhs with
  | some r =>
    match val_num with
    | none => false
    | some v =>
      if op = ">" then decide (r < v)
      else if op = "<" then decide (v < r)
      else if op = ">=" then decide (r ≤ v)
      else if op = "<=" then decide (v ≤ r)
      else if op = "==" then decide (v = r)
      else decide (v ≠ r)
  | none =>
    if op = "==" then pyStr val = rhs
    else if op = "!=" then decide (pyStr val ≠ rhs)
    else false

/-- `evaluate_condition`: `False` when the key is absent; numeric/boolean
literal conditions compare numerically; string conditions are checked for
a leading operator in the order `>=`, `<=`, `>`, `<`, `!=`, `==`, falling
back to direct string comparison against the stripped condition; any other
condition value falls back to strict equality. -/
def evaluate_condition (record_fields : List (String × JValue)) (key : String)
    (condition : JValue) : Bool :=
  match record_fields.lookup key with
  | none => false
  | some val =>
    let val_num := pyFloat val
    match condition with
    | .num c =>
      match val_num with
      | none => false
      | some vn => vn == c
    | .bool b =>
      match val_num with
      | none => false
      | some vn => vn == (if b then (1 : ℚ) else 0)
    | .str cond0 =>
      let cond := trimStr cond0
      if startsStr cond ">=" then condOp val val_num ">=" (cond.drop 2)
      else if startsStr cond "<=" then condOp val val_num "<=" (cond.drop 2)
      else if startsStr cond ">" then condOp val val_num ">" (cond.drop 1)
      else if startsStr cond "<" then condOp val val_num "<" (cond.drop 1)
      else if startsStr cond "!=" then condOp val val_num "!=" (cond.drop 2)
      else if startsStr cond "==" then condOp val val_num "==" (cond.drop 2)
      else pyStr val == cond
    | c => beqJ val c

/-- One routing rule: a destination name and its condition map. -/
structure RoutingRule where
  name : String
  conditions : List (String × JValue)

/-- A rule matches when every one of its conditions evaluates true (a rule
with no conditions matches unconditionally). -/
def ruleMatches (el : List (String × JValue)) (rule : RoutingRule) : Bool :=
  rule.conditions.all (fun kc => evaluate_condition el kc.1 kc.2)

/-- The `(el_fields.get("EL_REC_TYPE") or "").upper() == "ECOMMERCE"` test
of the LMS exclusion (Python would raise on a truthy non-string record
type; totalised to `false`, never reached by the theorems below). -/
def recTypeIsEcommerce (el : List (String × JValue)) : Bool :=
  match pyOr ((el.lookup "EL_REC_TYPE").getD .null) (.str "") with
  | .str s => upperStr s = "ECOMMERCE"
  | _ => false

/-- `route_using_config`, modelled as the list of performed destination
writes in rule order: `(rule name, destination sub-path)`.  A rule whose
conditions do not all match is skipped; `DWH` writes under
`group_usage`/`single_usage` times the record type; `LMS` is skipped for
e-commerce records even when its conditions matched; every other matching
rule writes under its own name (empty sub-path). -/
def route_using_config (el : List (String × JValue)) (rules : List RoutingRule) :
    List (String × String) :=
  rules.filterMap (fun rule =>
    if !ruleMatches el rule then none
    else if upperStr rule.name = "DWH" then
      let category := if beqJ ((el.lookup "EL_GROUP_USAGE").getD .null) (.num 1)
        then "group_usage" else "single_usage"
      let rec_type := pyStr (pyOr ((el.lookup "EL_REC_TYPE").getD .null) (.str "OTHER"))
      some (rule.name, category ++ "/" ++ rec_type)
    else if upperStr rule.name = "LMS" && recTypeIsEcommerce el then none
    else some (rule.name, ""))

/-!
## billing_mapper_node/data_usage_billing_mapper.py : exact-decimal slice

The billing mapper shares `safe_get`/`to_decimal` with the warehouse
mapper; embedded here are `fmt_decimal` and the `EL_TAX_AMOUNT` /
`EL_GROSS_CALL_COST` derivation of `map_billing` (the first `accountInfo`
search with its overwrite-and-break structure).
-/

/-- `x.get(k, []) or []` iteration source of the billing mapper. -/
def jIter (v : JValue) (k : String) : List JValue :=
  jlist (pyOr (jget v k) (.arr []))

/-- Round a rational to an integer, ties to even (`decimal.Decimal`'s
default `ROUND_HALF_EVEN`). -/
def halfEvenRound (q : ℚ) : ℤ :=
  let f := q.num.fdiv q.den
  let frac := q - f
  if frac < 1 / 2 then f
  else if 1 / 2 < frac then f + 1
  else if f % 2 = 0 then f else f + 1

/-- `fmt_decimal`: `""` for `None`, otherwise the value quantized to five
decimal places (half-even) and rendered in fixed-point (the
`InvalidOperation` fallback for astronomically large exponents is not
modelled). -/
def fmt_decimal (o : Option ℚ) : String :=
  match o with
  | none => ""
  | some q =>
    let n := halfEvenRound (q * 100000)
    let sign := if n < 0 then "-" else ""
    let a := n.natAbs
    let fracStr := toString (a % 100000)
    sign ++ toString (a / 100000) ++ "."
      ++ String.mk (List.replicate (5 - fracStr.length) '0') ++ fracStr

/-- `find_list_of_mscc`: first `listOfMscc` record extension. -/
def find_list_of_mscc (rec : JValue) : Option JValue :=
  (jIter rec "recordExtensions").find? (fun e => hasProp e "listOfMscc")

/-- `collect_subscription_blocks`: every `subscriptionInfo` under
`mscc → deviceInfo` children of the `listOfMscc` block, in order. -/
def collect_subscription_blocks (list_of_mscc : Option JValue) : List JValue :=
  match list_of_mscc with
  | none => []
  | some blk =>
    (jIter blk "recordSubExtensions").flatMap (fun sub =>
      if hasProp sub "mscc" then
        (jIter sub "recordSubExtensions").flatMap (fun dev =>
          if hasProp dev "deviceInfo" then
            (jIter dev "recordSubExtensions").filter (fun sinfo =>
              hasProp sinfo "subscriptionInfo")
          else [])
      else [])

/-- The first-`accountInfo` body of the billing tax/gross search: the
accumulators are overwritten (not merged) from that account's
`committedTaxAmount` and `accountBalanceCommittedBR or
accountBalanceCommitted`, the gross falling back to
`before - after` when no committed value parses. -/
def accountTaxGross (csubs : List JValue) (st : Option ℚ × Option ℚ) :
    Option ℚ × Option ℚ :=
  match csubs.find? (fun c => hasProp c "accountInfo") with
  | none => st
  | some csub =>
    let acc := pyOr (jget csub "recordElements") (.obj [])
    let tax := to_decimal (jget acc "committedTaxAmount")
    let gross0 := to_decimal (pyOr (jget acc "accountBalanceCommittedBR")
      (jget acc "accountBalanceCommitted"))
    let gross := match gross0 with
      | some g => some g
      | none =>
        match to_decimal (jget acc "accountBalanceBefore"),
              to_decimal (jget acc "accountBalanceAfter") with
        | some b, some a => some (b - a)
        | _, _ => none
    (tax, gross)

/-- The `chargingServiceInfo` loop of the billing tax/gross search (the
`break` fires once either accumulator is set; `continue` on other
properties skips that check, as in the source). -/
def billingChargeLoop : List JValue → Option ℚ × Option ℚ → Option ℚ × Option ℚ
  | [], st => st
  | c :: rest, st =>
    if !hasProp c "chargingServiceInfo" then billingChargeLoop rest st
    else
      let st' := accountTaxGross (jIter c "recordSubExtensions") st
      if st'.2.isSome || st'.1.isSome then st'
      else billingChargeLoop rest st'

/-- The subscription-block loop of the billing tax/gross search. -/
def billingSubLoop : List JValue → Option ℚ × Option ℚ → Option ℚ × Option ℚ
  | [], st => st
  | s :: rest, st =>
    let st' := billingChargeLoop (jIter s "recordSubExtensions") st
    if st'.2.isSome || st'.1.isSome then st'
    else billingSubLoop rest st'

/-- The `EL_TAX_AMOUNT` and `EL_GROSS_CALL_COST` fields of `map_billing`
(in that order), as `fmt_decimal` strings. -/
def billingTaxAndGross (cdr : JValue) : String × String :=
  let generic := pyOr (safe_get cdr ["original", "payload", "genericRecord"]) cdr
  let list_of_mscc := find_list_of_mscc generic
  let subs := collect_subscription_blocks list_of_mscc
  let st := billingSubLoop subs (none, none)
  (fmt_decimal st.1, fmt_decimal st.2)

/-!
## Concrete fixtures for the theorems
-/

/-- String-constructor test on a JSON value. -/
def isStrV : JValue → Bool
  | .str _ => true
  | _ => false

/-- Field access on a derived/canonical record (missing keys read as
`None`). -/
def fieldVal (rec : List (String × JValue)) (k : String) : JValue :=
  (rec.lookup k).getD .null

/-- Build a record-tree node in the decoded shape
(`recordProperty` / `recordElements` / `recordSubExtensions`). -/
def mkNode (prop : String) (elems : List (String × JValue)) (subs : List JValue) : JValue :=
  .obj [("recordProperty", .str prop), ("recordElements", .obj elems),
        ("recordSubExtensions", .arr subs)]

/-- The C1 synthetic account block: `before=100`, `after=70`, no committed
value. -/
def c1acct : JValue :=
  mkNode "accountInfo"
    [("accountID", .str "ACC1"), ("accountType", .str "MAIN"),
     ("accountBalanceBefore", .num 100), ("accountBalanceAfter", .num 70)] []

/-- The C1 synthetic record: one `accountInfo`, no bucket block. -/
def c1rec : JValue :=
  .obj [("recordElements", .obj [("sessionId", .str "S1")]),
        ("recordExtensions", .arr [
          mkNode "listOfMscc" [] [
            mkNode "mscc" [] [
              mkNode "deviceInfo" [] [
                mkNode "subscriptionInfo" [] [
                  mkNode "chargingServiceInfo" [] [c1acct]]]]]])]

/-- The i-th synthetic bucket of the C4 record. -/
def c4bucket (i : ℕ) : JValue :=
  mkNode "bucketInfo"
    [("bucketName", .str ("B" ++ toString i)), ("bucketUnitType", .str "MB"),
     ("bucketBalanceBefore", .num (100 + i)), ("bucketBalanceAfter", .num (40 + i)),
     ("rateId", .str ("R" ++ toString i))] []

/-- The i-th bucket-bearing subscription block of the C4 record. -/
def c4block (i : ℕ) : JValue :=
  mkNode "subscriptionInfo" [("bundleName", .str ("BND" ++ toString i))]
    [mkNode "chargingServiceInfo" [] [c4bucket i]]

/-- A record with `n` bucket-bearing subscription blocks, in order. -/
def c4rec (n : ℕ) : JValue :=
  .obj [("recordExtensions", .arr [
          mkNode "listOfMscc" [] [
            mkNode "mscc" [] [
              mkNode "deviceInfo" [] ((List.range n).map (fun i => c4block (i + 1)))]]])]

/-- The i-th synthetic account block of the account-family C4 record
(`before - after = 60`, no committed value, no bucket sibling). -/
def c4aacct (i : ℕ) : JValue :=
  mkNode "accountInfo"
    [("accountID", .str ("ACC" ++ toString i)), ("accountType", .str "MAIN"),
     ("accountBalanceBefore", .num (100 + i)), ("accountBalanceAfter", .num (40 + i))] []

/-- The i-th account-only subscription block of the account-family C4
record. -/
def c4ablock (i : ℕ) : JValue :=
  mkNode "subscriptionInfo" [("bundleName", .str ("BND" ++ toString i))]
    [mkNode "chargingServiceInfo" [] [c4aacct i]]

/-- A record with `n` account-only subscription blocks, in order. -/
def c4arec (n : ℕ) : JValue :=
  .obj [("recordExtensions", .arr [
          mkNode "listOfMscc" [] [
            mkNode "mscc" [] [
              mkNode "deviceInfo" [] ((List.range n).map (fun i => c4ablock (i + 1)))]]])]

/-- The account-slot key families (the five per-slot field-name stems of
the account slot groups). -/
def isAcctSlotKey (k : String) : Bool :=
  startsStr k "EL_ACCT_BALANCE_ID" || startsStr k "EL_BALANCE_TYPE" ||
  startsStr k "EL_CUR_BALANCE" || startsStr k "EL_CHG_BALANCE" ||
  startsStr k "EL_RATE_ID"

/-- The C9 record: one account block with exact-decimal string balances
and no committed value. -/
def c9rec : JValue :=
  .obj [("recordExtensions", .arr [
          mkNode "listOfMscc" [] [
            mkNode "mscc" [] [
              mkNode "deviceInfo" [] [
                mkNode "subscriptionInfo" [] [
                  mkNode "chargingServiceInfo" [] [
                    mkNode "accountInfo"
                      [("accountBalanceBefore", .str "100.12345"),
                       ("accountBalanceAfter", .str "40.00000")] []]]]]]])]

/-- A canonical-output field map whose derived record type is e-commerce. -/
def elEcom : List (String × JValue) :=
  [("EL_REC_TYPE", .str "ecommerce"), ("EL_GROUP_USAGE", .num 0),
   ("EL_DEBIT_AMOUNT", .num 5)]

/-- A routing-rule set whose LMS rule's conditions all match `elEcom`. -/
def demoRules : List RoutingRule :=
  [⟨"LMS", [("EL_DEBIT_AMOUNT", .str ">0")]⟩, ⟨"DWH", []⟩, ⟨"CRM", []⟩]

/-- A C5 account block whose balance difference is negative
(`10 - 25 < 0`), with committed value 40 and secondary cost 2. -/
def c5acct : JValue :=
  .obj [("accountBalanceBefore", .str "10"), ("accountBalanceAfter", .str "25"),
        ("accountBalanceCommitted", .str "40"), ("secondaryCostCommitted", .str "2")]

/-- A one-entry account-only list around `c5acct`. -/
def c5aos : List (JValue × JValue) := [(.str "", c5acct)]

/-- A C5 bucket whose balance difference is negative, with committed
units 7. -/
def c5bucket : BucketRec :=
  { bucketName := .str "B", bucketUnitType := .str "MB",
    bucketBalanceBefore := some 3, bucketBalanceAfter := some 9,
    bucketCommitedUnits := some 7, rateId := .str "R" }

/-- The C6 counterexample input: a var-pair whose value is itself a
var-pair (one pass flattens only the outer pair). -/
def c6bad : JValue :=
  .obj [("varName", .str "a"),
        ("varValue", .obj [("varName", .str "b"), ("varValue", .num 1)])]

/-- A tree in normal form (for the C6 witness). -/
def c6good : JValue :=
  .obj [("recordElements", .obj [("sessionId", .str "S1"), ("k", .arr [.num 1, .num 2])]),
        ("recordExtensions", .arr [.num 3, .str "x"])]

/-- A concrete abstract decoder for the C3 witness: succeed consuming two
bytes whenever at least two bytes remain. -/
def decW (s : List ℕ) : Option (Unit × ℕ) :=
  if 2 ≤ s.length then some ((), 2) else none

/-!
## Theorems

First the decidability bridge for `JValue` (soundness of `beqJ`, giving
decidable equality so that concrete counterexamples can be checked by
`decide`), then shared lookup lemmas, then one theorem per claim.
-/

mutual

theorem beqJ_iff : ∀ a b, beqJ a b = true ↔ a = b
  | .null, .null => by simp [beqJ]
  | .bool _, .bool _ => by simp [beqJ]
  | .num _, .num _ => by simp [beqJ]
  | .str _, .str _ => by simp [beqJ]
  | .arr xs, .arr ys => by
      simp only [beqJ, beqJList_iff xs ys]
      constructor
      · intro h; rw [h]
      · intro h; cases h; rfl
  | .obj xs, .obj ys => by
      simp only [beqJ, beqJFields_iff xs ys]
      constructor
      · intro h; rw [h]
      · intro h; cases h; rfl
  | .null, .bool _ => by simp [beqJ]
  | .null, .num _ => by simp [beqJ]
  | .null, .str _ => by simp [beqJ]
  | .null, .arr _ => by simp [beqJ]
  | .null, .obj _ => by simp [beqJ]
  | .bool _, .null => by simp [beqJ]
  | .bool _, .num _ => by simp [beqJ]
  | .bool _, .str _ => by simp [beqJ]
  | .bool _, .arr _ => by simp [beqJ]
  | .bool _, .obj _ => by simp [beqJ]
  | .num _, .null => by simp [beqJ]
  | .num _, .bool _ => by simp [beqJ]
  | .num _, .str _ => by simp [beqJ]
  | .num _, .arr _ => by simp [beqJ]
  | .num _, .obj _ => by simp [beqJ]
  | .str _, .null => by simp [beqJ]
  | .str _, .bool _ => by simp [beqJ]
  | .str _, .num _ => by simp [beqJ]
  | .str _, .arr _ => by simp [beqJ]
  | .str _, .obj _ => by simp [beqJ]
  | .arr _, .null => by simp [beqJ]
  | .arr _, .bool _ => by simp [beqJ]
  | .arr _, .num _ => by simp [beqJ]
  | .arr _, .str _ => by simp [beqJ]
  | .arr _, .obj _ => by simp [beqJ]
  | .obj _, .null => by simp [beqJ]
  | .obj _, .bool _ => by simp [beqJ]
  | .obj _, .num _ => by simp [beqJ]
  | .obj _, .str _ => by simp [beqJ]
  | .obj _, .arr _ => by simp [beqJ]

theorem beqJList_iff : ∀ xs ys, beqJList xs ys = true ↔ xs = ys
  | [], [] => by simp [beqJList]
  | [], _ :: _ => by simp [beqJList]
  | _ :: _, [] => by simp [beqJList]
  | x :: xs, y :: ys => by
      simp [beqJList, beqJ_iff x y, beqJList_iff xs ys]

theorem beqJFields_iff : ∀ xs ys, beqJFields xs ys = true ↔ xs = ys
  | [], [] => by simp [beqJFields]
  | [], _ :: _ => by simp [beqJFields]
  | _ :: _, [] => by simp [beqJFields]
  | (k, x) :: xs, (l, y) :: ys => by
      simp [beqJFields, beqJ_iff x y, beqJFields_iff xs ys]

end

instance : DecidableEq JValue := fun a b => decidable_of_iff _ (beqJ_iff a b)

/-- Looking a present key up in a key-tagged map of a key list finds that
key's image. -/
theorem lookup_map_keys (g : String → JValue) (ks : List String) (k : String)
    (hk : k ∈ ks) :
    (ks.map (fun key => (key, g key))).lookup k = some (g k) := by
  induction ks with
  | nil => cases hk
  | cons a rest ih =>
    by_cases h : k = a
    · subst h; simp [List.lookup]
    · rcases List.mem_cons.mp hk with h' | hk'
      · exact absurd h' h
      · have hb : (k == a) = false := beq_eq_false_iff_ne.mpr h
        simpa [List.lookup, hb] using ih hk'

/-- `List.lookup` distributes over append (first list wins). -/
theorem lookup_append (l1 l2 : List (String × JValue)) (k : String) :
    (l1 ++ l2).lookup k =
      match l1.lookup k with
      | some v => some v
      | none => l2.lookup k := by
  induction l1 with
  | nil => simp [List.lookup]
  | cons a rest ih =>
    by_cases h : k == a.1 <;> simp [List.lookup, h, ih]

/-- The canonical-shaping default is never `None`, and a kept value is
never `None` either. -/
theorem canonicalValue_ne_null (mapped : List (String × JValue)) (key : String) :
    canonicalValue mapped key ≠ .null := by
  unfold canonicalValue
  split <;> split <;> simp_all

/-- `_collapse_single_key_dicts` leaves a list alone when it is empty or
not entirely single-key dicts. -/
theorem collapse_arr_id (xs : List JValue)
    (h : (!xs.isEmpty && (allSingles xs).isSome) = false) :
    collapse_single_key_dicts (.arr xs) = .arr xs := by
  unfold collapse_single_key_dicts
  rcases hxe : xs.isEmpty
  · rcases hm : allSingles xs with _ | p
    · simp [hxe, hm]
    · simp [hxe, hm] at h
  · simp [hxe]

/-- `_collapse_single_key_dicts` fixes every normalized value. -/
theorem collapse_id_of_normalized (x : JValue) (h : normalized x = true) :
    collapse_single_key_dicts x = x := by
  match x with
  | .null => rfl
  | .bool _ => rfl
  | .num _ => rfl
  | .str _ => rfl
  | .obj _ => rfl
  | .arr xs =>
    simp only [normalized, Bool.and_eq_true, Bool.not_eq_true'] at h
    exact collapse_arr_id xs h.1.2

/-- On a list that is not a `[tag, dict]` pair, `flatten_and_collapse`
takes the elementwise-then-collapse branch. -/
theorem fc_arr_fallback (xs : List JValue) (h : isTaggedPair xs = false) :
    flatten_and_collapse (.arr xs) = collapse_single_key_dicts (.arr (fcList xs)) := by
  match xs with
  | [] => rfl
  | [x] => rcases x <;> rfl
  | x :: y :: z :: rest => rcases x <;> rcases y <;> rfl
  | [x, y] => rcases x <;> rcases y <;> first
    | rfl
    | simp [isTaggedPair] at h

mutual

theorem flattenFixes : ∀ v, normalized v = true → flatten_and_collapse v = v
  | .null, _ => rfl
  | .bool _, _ => rfl
  | .num _, _ => rfl
  | .str _, _ => rfl
  | .obj kvs, h => by
    simp only [normalized, Bool.and_eq_true, Bool.not_eq_true'] at h
    show (if isVarPairKeys kvs then varPairObj kvs else .obj (fcFields kvs)) = .obj kvs
    rw [h.1, if_neg (by simp)]
    rw [fieldsFixes kvs h.2]
  | .arr xs, h => by
    simp only [normalized, Bool.and_eq_true, Bool.not_eq_true'] at h
    rw [fc_arr_fallback xs h.1.1]
    rw [listFixes xs h.2]
    exact collapse_arr_id xs h.1.2

theorem listFixes : ∀ xs, normalizedList xs = true → fcList xs = xs
  | [], _ => rfl
  | x :: rest, h => by
    simp only [normalizedList, Bool.and_eq_true] at h
    show flatten_and_collapse x :: fcList rest = x :: rest
    rw [flattenFixes x h.1, listFixes rest h.2]

theorem fieldsFixes : ∀ kvs, normalizedFields kvs = true → fcFields kvs = kvs
  | [], _ => rfl
  | (k, x) :: rest, h => by
    simp only [normalizedFields, Bool.and_eq_true] at h
    show (k, if endsStr k "Elements" then
          collapse_single_key_dicts (flatten_and_collapse x)
        else flatten_and_collapse x) :: fcFields rest = (k, x) :: rest
    rw [flattenFixes x h.1, collapse_id_of_normalized x h.1, fieldsFixes rest h.2]
    simp

end

/-- C6 counterexample: `flatten_and_collapse` is not idempotent as
claimed.  A var-pair whose value is itself a var-pair is flattened only
one level per pass, so re-normalizing the output changes it again. -/
theorem C6_flatten_idempotent_counterexample :
    flatten_and_collapse (flatten_and_collapse c6bad) ≠ flatten_and_collapse c6bad := by
  decide

/-- C6 (amended): re-normalizing a tree already in normal form (no
`varName`/`varValue` pair dict, no `[tag, dict]` pair, no nonempty list
consisting entirely of single-key dicts, at any depth) is a no-op; the
pass as implemented does not always produce such a tree, so it is not
idempotent on all inputs (see the counterexample). -/
theorem C6_flatten_noop_on_normalized (v : JValue) (h : normalized v = true) :
    flatten_and_collapse v = v :=
  flattenFixes v h

/-- C6 witness: a concrete normal-form tree on which the amended theorem
applies. -/
theorem C6_flatten_noop_on_normalized_witness :
    normalized c6good = true ∧ flatten_and_collapse c6good = c6good :=
  ⟨by decide, C6_flatten_noop_on_normalized c6good (by decide)⟩

/-- With a decoder that always consumes at least one byte on success, the
framing loop's result does not depend on the fuel once the fuel covers the
remaining byte count: the loop needs at most `len - offset` more
iterations. -/
theorem decodeLoop_fuel_indep {α : Type} (dec : List ℕ → Option (α × ℕ))
    (raw : List ℕ) (hdec : ∀ s v n, dec s = some (v, n) → 1 ≤ n) :
    ∀ fuel₁ fuel₂ offset count, raw.length - offset ≤ fuel₁ →
      raw.length - offset ≤ fuel₂ →
      decodeLoop dec raw fuel₁ offset count = decodeLoop dec raw fuel₂ offset count := by
  intro fuel₁
  induction fuel₁ with
  | zero =>
    intro fuel₂ offset count h1 h2
    have hoff : ¬offset < raw.length := by omega
    cases fuel₂ with
    | zero => rfl
    | succ f2 => simp [decodeLoop, hoff]
  | succ f1 ih =>
    intro fuel₂ offset count h1 h2
    by_cases hoff : offset < raw.length
    · cases fuel₂ with
      | zero => omega
      | succ f2 =>
        simp only [decodeLoop, hoff, if_pos]
        rcases hd : dec (raw.drop offset) with _ | ⟨v, len⟩
        · simp only [frameStep, hd]
          exact ih f2 (offset + 1) count (by omega) (by omega)
        · have hlen := hdec _ _ _ hd
          simp only [frameStep, hd]
          rw [ih f2 (offset + len) (count + 1) (by omega) (by omega)]
    · cases fuel₂ with
      | zero => simp [decodeLoop, hoff]
      | succ f2 => simp [decodeLoop, hoff]

/-- C3: with the external BER decoder abstracted as `dec` (reporting the
consumed length of each successful decode, which is at least one byte),
every iteration of the framing loop strictly increases the offset cursor,
and the loop terminates within `len(bytes)` iterations:
`decode_all_ber_records`, which runs the loop with fuel `len(raw)`,
equals the loop run with any larger fuel. -/
theorem C3_framer_forward_progress {α : Type} (dec : List ℕ → Option (α × ℕ))
    (raw : List ℕ) (hdec : ∀ s v n, dec s = some (v, n) → 1 ≤ n) :
    (∀ offset count, offset < (frameStep dec raw offset count).2.1) ∧
    (∀ fuel offset count, raw.length - offset ≤ fuel →
      decodeLoop dec raw fuel offset count =
        decodeLoop dec raw (raw.length - offset) offset count) ∧
    (∀ fuel, raw.length ≤ fuel →
      decode_all_ber_records dec raw = decodeLoop dec raw fuel 0 1) := by
  refine ⟨?_, ?_, ?_⟩
  · intro offset count
    rcases hd : dec (raw.drop offset) with _ | ⟨v, len⟩
    · simp [frameStep, hd]
    · have := hdec _ _ _ hd
      simp [frameStep, hd]
      omega
  · intro fuel offset count h
    exact decodeLoop_fuel_indep dec raw hdec fuel (raw.length - offset) offset count h
      (le_refl _)
  · intro fuel h
    exact decodeLoop_fuel_indep dec raw hdec raw.length fuel 0 1 (by omega) (by omega)

/-- C3 witness: the forward-progress theorem applied to a concrete
decoder (consume two bytes whenever two remain) on a concrete buffer. -/
theorem C3_framer_forward_progress_witness :
    0 < (frameStep decW [160, 5, 7] 0 1).2.1 ∧
    decode_all_ber_records decW [160, 5, 7] = decodeLoop decW [160, 5, 7] 9 0 1 := by
  have hdec : ∀ s v n, decW s = some (v, n) → 1 ≤ n := by
    intro s v n h
    unfold decW at h
    split at h
    · injection h with h'
      cases h'
      omega
    · cases h
  exact ⟨(C3_framer_forward_progress decW [160, 5, 7] hdec).1 0 1,
    (C3_framer_forward_progress decW [160, 5, 7] hdec).2.2 9 (by decide)⟩

/-- C7: for a location string with at least 18 characters whose
tracking-area and cell-identifier slices are hex, the decode returns
`"{field2}-{field1}-{enb}-{cell}"` with field1 the decimal rendering of
chars 0-4 of the 18-char tail, field2 the byte-pair-swapped,
`F`/`f`-stripped chars 4-10, and `enb`/`cell` the value of chars 10-18
taken mod and div 256; with 14-17 characters it falls back to the last 14
characters split 6-4-4. -/
theorem C7_location_decode :
    (∀ (s : String) (t eci : ℕ),
      18 ≤ s.length →
      parseHexNat ((takeRightStr s 18).take 4) = some t →
      parseHexNat (((takeRightStr s 18).drop 10).take 8) = some eci →
      decode_location_hex_field (.str s) =
        String.mk ((swapPairs (((takeRightStr s 18).drop 4).take 6).data).filter
          (fun c => c ≠ 'F' ∧ c ≠ 'f'))
        ++ "-" ++ toString t ++ "-" ++ toString (eci % 256) ++ "-"
        ++ toString (eci / 256)) ∧
    (∀ s : String, 14 ≤ s.length → s.length < 18 →
      decode_location_hex_field (.str s) =
        (takeRightStr s 14).take 6 ++ "-" ++ ((takeRightStr s 14).drop 6).take 4 ++ "-"
          ++ ((takeRightStr s 14).drop 10).take 4) := by
  constructor
  · intro s t eci hlen ht he
    have hs : s ≠ "" := by
      intro h; rw [h] at hlen; exact absurd hlen (by decide)
    have htr : truthy (.str s) = true := by simp [truthy, hs]
    have hlast : last_n_chars (.str s) 18 = takeRightStr s 18 := by
      unfold last_n_chars
      rw [htr]
      show (if 18 ≤ s.length then takeRightStr s 18 else s) = takeRightStr s 18
      rw [if_pos hlen]
    have htail : (takeRightStr s 18).length = 18 := by
      show (s.data.drop (s.data.length - 18)).length = 18
      rw [List.length_drop]
      have : 18 ≤ s.data.length := hlen
      omega
    unfold decode_location_hex_field
    rw [htr]
    simp only [Bool.not_true, Bool.false_eq_true, if_false, hlast, htail]
    rw [if_neg (by omega)]
    unfold locationMain
    simp only [ht, he]
    rfl
  · intro s h14 h18
    have hs : s ≠ "" := by
      intro h; rw [h] at h14; exact absurd h14 (by decide)
    have htr : truthy (.str s) = true := by simp [truthy, hs]
    have hlast : last_n_chars (.str s) 18 = s := by
      unfold last_n_chars
      rw [htr]
      show (if 18 ≤ s.length then takeRightStr s 18 else s) = s
      rw [if_neg (by omega)]
    have hlast14 : last_n_chars (.str s) 14 = takeRightStr s 14 := by
      unfold last_n_chars
      rw [htr]
      show (if 14 ≤ s.length then takeRightStr s 14 else s) = takeRightStr s 14
      rw [if_pos h14]
    have h14' : (takeRightStr s 14).length = 14 := by
      show (s.data.drop (s.data.length - 14)).length = 14
      rw [List.length_drop]
      have : 14 ≤ s.data.length := h14
      omega
    have hne : takeRightStr s 14 ≠ "" := by
      intro h; rw [h] at h14'; exact absurd h14' (by decide)
    unfold decode_location_hex_field
    rw [htr]
    simp only [Bool.not_true, Bool.false_eq_true, if_false, hlast, hlast14]
    rw [if_pos h18, if_neg hne]
    rfl

/-- C7 witness: the spec's worked example `0012 + 00F1F2 + 00000101`
decodes to TAC 18, enb 1, cell 1 (output `0012-18-1-1`), and a 14-char
string takes the 6-4-4 fallback. -/
theorem C7_location_decode_witness :
    decode_location_hex_field (.str "001200F1F200000101") = "0012-18-1-1" ∧
    decode_location_hex_field (.str "12345678901234") = "123456-7890-1234" :=
  ⟨(C7_location_decode.1 "001200F1F200000101" 18 257 (by decide) (by decide)
      (by decide)).trans (by decide),
   (C7_location_decode.2 "12345678901234" (by decide) (by decide)).trans (by decide)⟩

/-- Absent keys make a condition evaluate false (shared helper). -/
theorem evalCondition_absent (record_fields : List (String × JValue)) (key : String)
    (condition : JValue) (h : record_fields.lookup key = none) :
    evaluate_condition record_fields key condition = false := by
  simp [evaluate_condition, h]

/-- C8: a record whose derived `EL_REC_TYPE` uppercases to `ECOMMERCE` is
never routed to the LMS destination, whatever the rule set and however
LMS's declared conditions evaluate: no performed write carries a rule name
that uppercases to `LMS`. -/
theorem C8_lms_ecommerce_exclusion (el : List (String × JValue))
    (rules : List RoutingRule) (h : recTypeIsEcommerce el = true) :
    (route_using_config el rules).all (fun d => upperStr d.1 != "LMS") = true := by
  induction rules with
  | nil => rfl
  | cons rule rest ih =>
    simp only [route_using_config, List.filterMap_cons] at ih ⊢
    split
    · exact ih
    · next d heq =>
      rw [List.all_cons, Bool.and_eq_true]
      refine And.intro ?_ ih
      by_cases h1 : (!ruleMatches el rule) = true
      · rw [if_pos h1] at heq; cases heq
      · rw [if_neg h1] at heq
        by_cases h2 : upperStr rule.name = "DWH"
        · rw [if_pos h2] at heq
          injection heq with heq'
          subst heq'
          simp [h2]
        · rw [if_neg h2] at heq
          by_cases h3 : (decide (upperStr rule.name = "LMS") && recTypeIsEcommerce el) = true
          · rw [if_pos h3] at heq; cases heq
          · rw [if_neg h3] at heq
            injection heq with heq'
            subst heq'
            have hne : ¬upperStr rule.name = "LMS" := by
              intro hl
              exact h3 (by simp [hl, h])
            simp [hne]

/-- C10: `evaluate_condition` returns `False` whenever the condition's
field name is absent from the record; consequently a rule any of whose
conditions names an absent field never matches, while a rule with an
empty condition map always matches. -/
theorem C10_absent_field_semantics :
    (∀ (record_fields : List (String × JValue)) (key : String) (condition : JValue),
      record_fields.lookup key = none →
      evaluate_condition record_fields key condition = false) ∧
    (∀ (el : List (String × JValue)) (rule : RoutingRule),
      (∃ kc ∈ rule.conditions, el.lookup kc.1 = none) →
      ruleMatches el rule = false) ∧
    (∀ (el : List (String × JValue)) (name : String),
      ruleMatches el ⟨name, []⟩ = true) := by
  refine ⟨evalCondition_absent, ?_, fun _ _ => rfl⟩
  intro el rule hx
  rcases hx with ⟨kc, hmem, hnone⟩
  apply List.all_eq_false.mpr
  exact ⟨kc, hmem, by simp [evalCondition_absent el kc.1 kc.2 hnone]⟩

/-- C8 witness: with the e-commerce record `elEcom` and a rule set whose
LMS rule's conditions all match, no write goes to LMS. -/
theorem C8_lms_ecommerce_exclusion_witness :
    ruleMatches elEcom ⟨"LMS", [("EL_DEBIT_AMOUNT", .str ">0")]⟩ = true ∧
    recTypeIsEcommerce elEcom = true ∧
    (route_using_config elEcom demoRules).all (fun d => upperStr d.1 != "LMS") = true :=
  ⟨by decide, by decide, C8_lms_ecommerce_exclusion elEcom demoRules (by decide)⟩

/-- C10 witness: the three parts applied at concrete inputs — an absent
key evaluates false, a rule naming an absent field does not match, a
condition-free rule matches. -/
theorem C10_absent_field_semantics_witness :
    evaluate_condition [("a", JValue.num 1)] "b" (.str ">0") = false ∧
    ruleMatches elEcom ⟨"X", [("MISSING", .str ">0")]⟩ = false ∧
    ruleMatches elEcom ⟨"ALL", []⟩ = true :=
  ⟨C10_absent_field_semantics.1 [("a", JValue.num 1)] "b" (.str ">0") rfl,
   C10_absent_field_semantics.2.1 elEcom ⟨"X", [("MISSING", .str ">0")]⟩
     ⟨("MISSING", .str ">0"), by decide, rfl⟩,
   C10_absent_field_semantics.2.2 elEcom "ALL"⟩

/-- C9: with before-balance `"100.12345"`, after-balance `"40.00000"` and
no committed value, the derived balance change (`EL_GROSS_CALL_COST` of
the billing mapper) is exactly the string `"60.12345"`: the parses are
exact rationals, the subtraction is exact, and `fmt_decimal` renders the
exact result. -/
theorem C9_exact_decimal_balance :
    (billingTaxAndGross c9rec).2 = "60.12345" ∧
    to_decimal (.str "100.12345") = some (10012345 / 100000) ∧
    to_decimal (.str "40.00000") = some 40 ∧
    (10012345 : ℚ) / 100000 - 40 = 6012345 / 100000 ∧
    fmt_decimal (some ((10012345 : ℚ) / 100000 - 40)) = "60.12345" := by
  refine ⟨rfl, by decide, by decide, by decide, by decide⟩

/-- C1 counterexample: on the synthetic record (one `accountInfo` with
`before=100`, `after=70`, no committed value, no bucket block) the
derived `EL_DEBIT_AMOUNT` is `0.0`, not the claimed `30.0`: the
no-bucket account branch of the debit rule reads only the explicit
committed values, which are absent here. -/
theorem C1_debit_counterexample :
    fieldVal (map_voice true c1rec) "EL_DEBIT_AMOUNT" = JValue.num 0 ∧ (0 : ℚ) ≠ 30 :=
  ⟨rfl, by norm_num⟩

/-- C1 (amended): on the synthetic record the derived `EL_DEBIT_AMOUNT`
is `0.0` (not `30.0` — no committed value is present and the no-bucket
branch does not fall back to `before - after`); slot 1 is populated from
the account (`EL_CHG_BALANCE1 = 30.0` does carry the balance
difference), and slots 2-5 hold type defaults. -/
theorem C1_end_to_end_amended :
    fieldVal (map_voice true c1rec) "EL_DEBIT_AMOUNT" = .num 0 ∧
    fieldVal (map_voice true c1rec) "EL_ACCT_BALANCE_ID1" = .str "ACC1" ∧
    fieldVal (map_voice true c1rec) "EL_BALANCE_TYPE1" = .str "MAIN" ∧
    fieldVal (map_voice true c1rec) "EL_CUR_BALANCE1" = .num 70 ∧
    fieldVal (map_voice true c1rec) "EL_CHG_BALANCE1" = .num 30 ∧
    fieldVal (map_voice true c1rec) "EL_RATE_ID1" = .str "" ∧
    (["2", "3", "4", "5"].all (fun n =>
      fieldVal (map_voice true c1rec) ("EL_ACCT_BALANCE_ID" ++ n) == .str "" &&
      fieldVal (map_voice true c1rec) ("EL_BALANCE_TYPE" ++ n) == .str "" &&
      fieldVal (map_voice true c1rec) ("EL_CUR_BALANCE" ++ n) == .num 0 &&
      fieldVal (map_voice true c1rec) ("EL_CHG_BALANCE" ++ n) == .num 0 &&
      fieldVal (map_voice true c1rec) ("EL_RATE_ID" ++ n) == .str "")) = true := by
  exact ⟨rfl, rfl, rfl, rfl, rfl, rfl, by decide⟩

/-- C2 (amended): the canonical-shaping step always produces exactly the
declared field list in the declared order; every canonical field is
present and non-`None` (the derived value when truthy-non-empty, else
`0.0` for the declared numeric fields and `""` otherwise); and every
declared numeric field of the voice mapper's output holds a number, for
every input record.  (The original claim's "every other field holds a
string" is false: see the counterexample.) -/
theorem C2_canonical_shape_amended :
    (∀ mapped : List (String × JValue),
      (enforce_canonical mapped).map Prod.fst = CANONICAL_FIELDS) ∧
    (∀ (mapped : List (String × JValue)) (k : String), k ∈ CANONICAL_FIELDS →
      (enforce_canonical mapped).lookup k = some (canonicalValue mapped k) ∧
      canonicalValue mapped k ≠ .null) ∧
    (∀ (flag : Bool) (rec : JValue) (k : String), k ∈ numeric_fields →
      ∃ q : ℚ, (map_voice flag rec).lookup k = some (.num q)) := by
  refine ⟨?_, ?_, ?_⟩
  · intro mapped
    simp only [enforce_canonical, List.map_map]
    exact List.map_id CANONICAL_FIELDS
  · intro mapped k hk
    exact ⟨lookup_map_keys (canonicalValue mapped) CANONICAL_FIELDS k hk,
      canonicalValue_ne_null mapped k⟩
  · intro flag rec k hk
    fin_cases hk <;> exact ⟨_, rfl⟩

/-- C2 counterexample: on the empty tree the output field
`EL_ACTUAL_USAGE` — which is not in the declared numeric-field set —
holds the number `0.0`, not a string, falsifying "every other field holds
a string". -/
theorem C2_canonical_shape_counterexample :
    fieldVal (map_voice true (.obj [])) "EL_ACTUAL_USAGE" = JValue.num 0 ∧
    isStrV (JValue.num 0) = false ∧
    "EL_ACTUAL_USAGE" ∉ numeric_fields :=
  ⟨rfl, rfl, by decide⟩

/-- C2 witness: the three parts of the amended canonical-shape theorem
applied at concrete inputs. -/
theorem C2_canonical_shape_amended_witness :
    (enforce_canonical []).map Prod.fst = CANONICAL_FIELDS ∧
    (enforce_canonical []).lookup "EL_CDR_ID" = some (canonicalValue [] "EL_CDR_ID") ∧
    (∃ q : ℚ, (map_voice true (.obj [])).lookup "EL_DEBIT_AMOUNT" = some (.num q)) :=
  ⟨C2_canonical_shape_amended.1 [],
   (C2_canonical_shape_amended.2.1 [] "EL_CDR_ID" (by decide)).1,
   C2_canonical_shape_amended.2.2 true (.obj []) "EL_DEBIT_AMOUNT" (by decide)⟩

/-- C4: both repeated-entity slot families are capped at five.  The
account-slot and bucket-slot projections depend only on the first five
collected occurrences (every occurrence beyond the fifth is dropped),
unused slots of either family are padded with type defaults, and on
concrete records with 7 occurrences (7 bucket-bearing blocks,
respectively 7 account-only blocks) exactly slots 1-5 are populated in
encounter order, with all 25 slot fields of the 7-occurrence record
identical to those of the same record truncated to 5 occurrences
(dropped, not merged, no error). -/
theorem C4_slot_cap :
    (∀ aos : List (JValue × JValue), acctSlots aos = acctSlots (aos.take 5)) ∧
    (∀ bss : List (JValue × List BucketRec), bucketSlots bss = bucketSlots (bss.take 5)) ∧
    (∀ (aos : List (JValue × JValue)) (idx : ℕ), aos.get? idx = none →
      acctSlotGroup aos idx =
        [("EL_ACCT_BALANCE_ID" ++ toString (idx + 1), .str ""),
         ("EL_BALANCE_TYPE" ++ toString (idx + 1), .str ""),
         ("EL_CUR_BALANCE" ++ toString (idx + 1), .num 0),
         ("EL_CHG_BALANCE" ++ toString (idx + 1), .num 0),
         ("EL_RATE_ID" ++ toString (idx + 1), .str "")]) ∧
    (∀ (bss : List (JValue × List BucketRec)) (idx : ℕ), bss.get? idx = none →
      bucketSlotGroup bss idx =
        [("EL_BUCKET_BALANCE_ID" ++ toString (idx + 1), .str ""),
         ("EL_BUCKET_BALANCE_TYPE" ++ toString (idx + 1), .str ""),
         ("EL_BUCKET_CUR_BALANCE" ++ toString (idx + 1), .num 0),
         ("EL_BUCKET_CHG_BALANCE" ++ toString (idx + 1), .num 0),
         ("EL_BUCKET_RATE_ID" ++ toString (idx + 1), .str "")]) ∧
    (fieldVal (map_voice true (c4rec 7)) "EL_BUCKET_BALANCE_ID1" = .str "BND1-B1" ∧
     fieldVal (map_voice true (c4rec 7)) "EL_BUCKET_BALANCE_ID2" = .str "BND2-B2" ∧
     fieldVal (map_voice true (c4rec 7)) "EL_BUCKET_BALANCE_ID3" = .str "BND3-B3" ∧
     fieldVal (map_voice true (c4rec 7)) "EL_BUCKET_BALANCE_ID4" = .str "BND4-B4" ∧
     fieldVal (map_voice true (c4rec 7)) "EL_BUCKET_BALANCE_ID5" = .str "BND5-B5" ∧
     fieldVal (map_voice true (c4rec 7)) "EL_BUCKET_CUR_BALANCE1" = .str "41.0" ∧
     fieldVal (map_voice true (c4rec 7)) "EL_BUCKET_CHG_BALANCE1" = .str "60.0" ∧
     fieldVal (map_voice true (c4rec 7)) "EL_BUCKET_CUR_BALANCE5" = .str "45.0" ∧
     fieldVal (map_voice true (c4rec 7)) "EL_BUCKET_CHG_BALANCE5" = .str "60.0") ∧
    (fieldVal (map_voice true (c4arec 7)) "EL_ACCT_BALANCE_ID1" = .str "ACC1" ∧
     fieldVal (map_voice true (c4arec 7)) "EL_ACCT_BALANCE_ID2" = .str "ACC2" ∧
     fieldVal (map_voice true (c4arec 7)) "EL_ACCT_BALANCE_ID3" = .str "ACC3" ∧
     fieldVal (map_voice true (c4arec 7)) "EL_ACCT_BALANCE_ID4" = .str "ACC4" ∧
     fieldVal (map_voice true (c4arec 7)) "EL_ACCT_BALANCE_ID5" = .str "ACC5" ∧
     fieldVal (map_voice true (c4arec 7)) "EL_CUR_BALANCE1" = .num 41 ∧
     fieldVal (map_voice true (c4arec 7)) "EL_CHG_BALANCE1" = .num 60 ∧
     fieldVal (map_voice true (c4arec 7)) "EL_CUR_BALANCE5" = .num 45 ∧
     fieldVal (map_voice true (c4arec 7)) "EL_CHG_BALANCE5" = .num 60) ∧
    (map_voice true (c4rec 7)).filter (fun kv => startsStr kv.1 "EL_BUCKET_") =
      (map_voice true (c4rec 5)).filter (fun kv => startsStr kv.1 "EL_BUCKET_") ∧
    ((CANONICAL_FIELDS.filter (fun k => isAcctSlotKey k)).all (fun k =>
      fieldVal (map_voice true (c4arec 7)) k == fieldVal (map_voice true (c4arec 5)) k)) = true := by
  refine ⟨?_, ?_, ?_, ?_, ?_, ?_, ?_, ?_⟩
  · intro aos
    have h : ∀ idx, idx < 5 → acctSlotGroup aos idx = acctSlotGroup (aos.take 5) idx := by
      intro idx hidx
      unfold acctSlotGroup
      rw [show (aos.take 5).get? idx = aos.get? idx from by
        rw [List.get?_eq_getElem?, List.get?_eq_getElem?, List.getElem?_take_of_lt hidx]]
    show (List.range 5).flatMap (fun idx => acctSlotGroup aos idx) =
      (List.range 5).flatMap (fun idx => acctSlotGroup (aos.take 5) idx)
    rw [show List.range 5 = [0, 1, 2, 3, 4] from rfl]
    simp only [List.flatMap_cons, List.flatMap_nil, List.append_nil]
    rw [h 0 (by omega), h 1 (by omega), h 2 (by omega), h 3 (by omega), h 4 (by omega)]
  · intro bss
    have h : ∀ idx, idx < 5 → bucketSlotGroup bss idx = bucketSlotGroup (bss.take 5) idx := by
      intro idx hidx
      unfold bucketSlotGroup
      rw [show (bss.take 5).get? idx = bss.get? idx from by
        rw [List.get?_eq_getElem?, List.get?_eq_getElem?, List.getElem?_take_of_lt hidx]]
    show (List.range 5).flatMap (fun idx => bucketSlotGroup bss idx) =
      (List.range 5).flatMap (fun idx => bucketSlotGroup (bss.take 5) idx)
    rw [show List.range 5 = [0, 1, 2, 3, 4] from rfl]
    simp only [List.flatMap_cons, List.flatMap_nil, List.append_nil]
    rw [h 0 (by omega), h 1 (by omega), h 2 (by omega), h 3 (by omega), h 4 (by omega)]
  · intro aos idx h
    simp only [acctSlotGroup, h]
  · intro bss idx h
    simp only [bucketSlotGroup, h]
  · exact ⟨rfl, rfl, rfl, rfl, rfl, rfl, rfl, rfl, rfl⟩
  · exact ⟨rfl, rfl, rfl, rfl, rfl, rfl, rfl, rfl, rfl⟩
  · rfl
  · decide

/-- C4 witness: the take-5 identities applied to concrete 7-entry
collections of both slot families, and both padding equations applied to
the empty collections at slot 3. -/
theorem C4_slot_cap_witness :
    acctSlots [(.str "", c5acct), (.str "", c5acct), (.str "", c5acct), (.str "", c5acct),
        (.str "", c5acct), (.str "", c5acct), (.str "", c5acct)] =
      acctSlots ([(.str "", c5acct), (.str "", c5acct), (.str "", c5acct), (.str "", c5acct),
        (.str "", c5acct), (.str "", c5acct), (.str "", c5acct)].take 5) ∧
    bucketSlots [(.str "BX", [c5bucket]), (.str "B2", []), (.str "B3", []),
        (.str "B4", []), (.str "B5", []), (.str "B6", []), (.str "B7", [])] =
      bucketSlots ([(.str "BX", [c5bucket]), (.str "B2", []), (.str "B3", []),
        (.str "B4", []), (.str "B5", []), (.str "B6", []), (.str "B7", [])].take 5) ∧
    acctSlotGroup ([] : List (JValue × JValue)) 2 =
      [("EL_ACCT_BALANCE_ID3", .str ""), ("EL_BALANCE_TYPE3", .str ""),
       ("EL_CUR_BALANCE3", .num 0), ("EL_CHG_BALANCE3", .num 0),
       ("EL_RATE_ID3", .str "")] ∧
    bucketSlotGroup ([] : List (JValue × List BucketRec)) 2 =
      [("EL_BUCKET_BALANCE_ID3", .str ""), ("EL_BUCKET_BALANCE_TYPE3", .str ""),
       ("EL_BUCKET_CUR_BALANCE3", .num 0), ("EL_BUCKET_CHG_BALANCE3", .num 0),
       ("EL_BUCKET_RATE_ID3", .str "")] :=
  ⟨C4_slot_cap.1 _, C4_slot_cap.2.1 _,
   (C4_slot_cap.2.2.1 [] 2 rfl).trans (by decide),
   (C4_slot_cap.2.2.2.1 [] 2 rfl).trans (by decide)⟩

/-- C5: for every populated slot whose source block carries both a
before- and an after-balance, the charged-balance field is the exact
decimal difference `before - after` when that difference is
non-negative; when it is negative, the committed-units value is
substituted instead (for account slots `accountBalanceCommitted` or its
`BR` variant plus `secondaryCostCommitted`, for bucket slots
`bucketCommitedUnits`). -/
theorem C5_charged_balance_rule :
    (∀ (aos : List (JValue × JValue)) (idx : ℕ) (entry : JValue × JValue) (b a : ℚ),
      aos.get? idx = some entry →
      to_decimal (jget entry.2 "accountBalanceBefore") = some b →
      to_decimal (jget entry.2 "accountBalanceAfter") = some a →
      (0 ≤ b - a →
        (acctSlotGroup aos idx).get? 3 =
          some ("EL_CHG_BALANCE" ++ toString (idx + 1), .num (b - a))) ∧
      (b - a < 0 →
        (acctSlotGroup aos idx).get? 3 =
          some ("EL_CHG_BALANCE" ++ toString (idx + 1), .num (acctCommittedFallback entry.2)))) ∧
    (∀ (b : BucketRec) (bef aft : ℚ),
      b.bucketBalanceBefore = some bef →
      b.bucketBalanceAfter = some aft →
      (0 ≤ bef - aft → bucketChgEntry b = pyFloatStr (bef - aft)) ∧
      (bef - aft < 0 →
        bucketChgEntry b = pyFloatStr ((pyOrDec b.bucketCommitedUnits (some 0)).getD 0))) := by
  constructor
  · intro aos idx entry b a hentry hb ha
    constructor <;> intro hsign
    · simp only [acctSlotGroup, hentry, hb, ha, List.get?]
      rw [if_pos hsign]
      rfl
    · simp only [acctSlotGroup, hentry, hb, ha, List.get?]
      rw [if_neg (not_le.mpr hsign)]
  · intro b bef aft hbef haft
    constructor <;> intro hsign
    · simp only [bucketChgEntry, hbef, haft]
      rw [if_pos hsign]
      rfl
    · simp only [bucketChgEntry, hbef, haft]
      rw [if_neg (not_le.mpr hsign)]
      rfl

/-- C5 witness: a concrete account block with `10 - 25 < 0` substitutes
`40 + 2 = 42`, and a concrete bucket with `3 - 9 < 0` substitutes its
committed units `7`. -/
theorem C5_charged_balance_rule_witness :
    (acctSlotGroup c5aos 0).get? 3 = some ("EL_CHG_BALANCE1", .num 42) ∧
    bucketChgEntry c5bucket = "7.0" := by
  constructor
  · exact ((C5_charged_balance_rule.1 c5aos 0 (.str "", c5acct) 10 25 rfl rfl rfl).2
      (by norm_num)).trans (by decide)
  · exact ((C5_charged_balance_rule.2 c5bucket 3 9 rfl rfl).2 (by norm_num)).trans (by decide)
